import Mathlib

/-!
Verification development for the Telegram anti-harassment two-way chatbot.

The Python sources are shallowly embedded as executable Lean definitions:
pure string processing is translated directly, stateful code becomes explicit
state passing, external library calls (the AI provider, PIL image decoding,
the JSON parser restricted to the shapes the code consumes, the database) are
modelled as explicit parameters or as restricted executable functions, and
randomness (`random.choice`, `random.shuffle`) is passed in as explicit
choice data.  Theorems about the claims follow the definitions.
-/

/-! ## Basic Python string semantics -/

/-- The whitespace character class shared by Python's regex `\s` (Unicode mode)
and `str.strip()`: ASCII whitespace plus the Unicode space characters. -/
def wsChar (c : Char) : Bool :=
  c == ' ' || c == '\t' || c == '\n' || c == '\r' || c == '\x0b' || c == '\x0c' ||
  (0x1c ≤ c.toNat && c.toNat ≤ 0x1f) || c.toNat == 0x85 || c.toNat == 0xa0 ||
  c.toNat == 0x1680 || (0x2000 ≤ c.toNat && c.toNat ≤ 0x200a) ||
  c.toNat == 0x2028 || c.toNat == 0x2029 || c.toNat == 0x202f ||
  c.toNat == 0x205f || c.toNat == 0x3000

/-- `beginsL pat cs` : does `cs` start with `pat`? -/
def beginsL : List Char → List Char → Bool
  | [], _ => true
  | _ :: _, [] => false
  | p :: ps, c :: cs => p == c && beginsL ps cs

/-- `containsSub pat cs` : does `pat` occur as a contiguous substring of `cs`?
Models Python's `pat in cs`. -/
def containsSub (pat : List Char) : List Char → Bool
  | [] => beginsL pat []
  | c :: cs => beginsL pat (c :: cs) || containsSub pat cs

/-- Python `str.strip()` on the left: drop leading whitespace. -/
def trimLeftWs (cs : List Char) : List Char := List.dropWhile wsChar cs

/-- Python `str.strip()` on the right: drop trailing whitespace. -/
def trimRightWs (cs : List Char) : List Char :=
  (List.dropWhile wsChar cs.reverse).reverse

/-- Python `str.strip()`: drop leading and trailing whitespace. -/
def stripWs (cs : List Char) : List Char := trimRightWs (trimLeftWs cs)

/-- `str.strip()` lifted to `String`. -/
def stripStr (s : String) : String := String.mk (stripWs s.data)

/-- Truthiness of an optional Python string (`if not s: ...`):
`None` and the empty string are falsy. -/
def pyFalsyStr : Option String → Bool
  | none => true
  | some s => s == ""

/-! ## The code-fence stripping regex

`re.sub(r'```json\s*|\s*```', '', text)` from
`src/services/gemini_service.py`.  `re.sub` scans left to right replacing
non-overlapping leftmost matches by the empty string.  At a given position the
alternation first tries the literal ````` ```json ````` followed by greedy
`\s*`, then `\s*` followed by the literal ````` ``` `````.  Because a
backtick is never whitespace, the second branch matches at a position exactly
when dropping all whitespace from that position leaves a string starting with
````` ``` `````, and it then consumes that whitespace and the three backticks. -/

/-- The three-backtick fence token. -/
def tick3 : List Char := ['`', '`', '`']

/-- The ````` ```json ````` fence token. -/
def tick3json : List Char := tick3 ++ ['j', 's', 'o', 'n']

/-- Try to match the fence regex at the head of `cs`; on success return the
remainder after the consumed match. -/
def fenceMatch (cs : List Char) : Option (List Char) :=
  if beginsL tick3json cs then some (List.dropWhile wsChar (cs.drop 7))
  else
    let r := List.dropWhile wsChar cs
    if beginsL tick3 r then some (r.drop 3) else none

/-- Fuelled scan of `re.sub(r'```json\s*|\s*```', '', ·)`: at each position
replace a match by nothing and continue after it, otherwise keep the character
and move on.  The fuel is an upper bound on the number of steps; every step
consumes at least one character, so `cs.length` fuel always suffices. -/
def fenceSubAux : Nat → List Char → List Char
  | 0, cs => cs
  | _ + 1, [] => []
  | fuel + 1, c :: cs =>
    match fenceMatch (c :: cs) with
    | some rest => fenceSubAux fuel rest
    | none => c :: fenceSubAux fuel cs

/-- `re.sub(r'```json\s*|\s*```', '', cs)`. -/
def fenceSub (cs : List Char) : List Char := fenceSubAux cs.length cs

/-- The whole cleaning step applied to a raw response:
`re.sub(r'```json\s*|\s*```', '', response_text).strip()`. -/
def cleanResponse (s : String) : List Char := stripWs (fenceSub s.data)

/-! ## JSON parsing, restricted to the shapes the code consumes

`json.loads` is a library call; it is modelled here only on JSON objects of
the exact shape `{"is_spam": <bool>, "reason": <string>}` that
`analyze_message` consumes (other JSON documents are not modelled and map to
a parse failure).  String literals support the single-character escapes
`\" \\ \/ \b \f \n \r \t` (`\uXXXX` escapes are not modelled); bare control
characters inside a string literal are rejected, as in `json.loads`' strict
mode. -/

/-- Decode a single-character JSON string escape. -/
def jsonEsc : Char → Option Char
  | '"' => some '"'
  | '\\' => some '\\'
  | '/' => some '/'
  | 'b' => some '\x08'
  | 'f' => some '\x0c'
  | 'n' => some '\n'
  | 'r' => some '\r'
  | 't' => some '\t'
  | _ => none

/-- Read the body of a JSON string literal (the opening quote already
consumed); return the decoded content and the remainder after the closing
quote. -/
def readStrLit : List Char → Option (List Char × List Char)
  | [] => none
  | c :: rest =>
    if c = '"' then some ([], rest)
    else if c = '\\' then
      match rest with
      | [] => none
      | e :: rest2 =>
        match jsonEsc e with
        | some x => (readStrLit rest2).map (fun p => (x :: p.1, p.2))
        | none => none
    else if c.toNat < 32 then none
    else (readStrLit rest).map (fun p => (c :: p.1, p.2))

/-- Consume an expected literal token. -/
def dropTok (pat cs : List Char) : Option (List Char) :=
  if beginsL pat cs then some (cs.drop pat.length) else none

/-- Parse a JSON boolean token. -/
def parseBoolTok (cs : List Char) : Option (Bool × List Char) :=
  if beginsL ['t', 'r', 'u', 'e'] cs then some (true, cs.drop 4)
  else if beginsL ['f', 'a', 'l', 's', 'e'] cs then some (false, cs.drop 5)
  else none

/-- The key token `"is_spam"` as characters. -/
def keyIsSpam : List Char := '"' :: 'i' :: 's' :: '_' :: 's' :: 'p' :: 'a' :: 'm' :: ['"']

/-- The key token `"reason"` as characters. -/
def keyReason : List Char := '"' :: 'r' :: 'e' :: 'a' :: 's' :: 'o' :: 'n' :: ['"']

/-- `json.loads` restricted to `{"is_spam": <bool>, "reason": <string>}`
(with arbitrary JSON whitespace between tokens, nothing after the closing
brace). -/
def parseSpamObj (cs : List Char) : Option (Bool × List Char) := do
  let cs := List.dropWhile wsChar cs
  let cs ← dropTok ['\x7b'] cs
  let cs := List.dropWhile wsChar cs
  let cs ← dropTok keyIsSpam cs
  let cs := List.dropWhile wsChar cs
  let cs ← dropTok [':'] cs
  let cs := List.dropWhile wsChar cs
  let (b, cs) ← parseBoolTok cs
  let cs := List.dropWhile wsChar cs
  let cs ← dropTok [','] cs
  let cs := List.dropWhile wsChar cs
  let cs ← dropTok keyReason cs
  let cs := List.dropWhile wsChar cs
  let cs ← dropTok [':'] cs
  let cs := List.dropWhile wsChar cs
  let cs ← dropTok ['"'] cs
  let (r, cs) ← readStrLit cs
  let cs := List.dropWhile wsChar cs
  let cs ← dropTok ['\x7d'] cs
  let cs := List.dropWhile wsChar cs
  if cs.isEmpty then some (b, r) else none

/-! ## The model service (`src/services/model_service.py`)

Adapters wrap external client libraries; constructing one can only fail with
an `ImportError` when the backing library is absent, which is modelled by the
availability flags in `PyEnv`.  The state of the process-wide `ModelService`
singleton is the active adapter plus the two model-name slots. -/

/-- A constructed model adapter, identified by its class and the constructor
arguments it stores. -/
inductive Adapter where
  | gemini (api_key : String) (base_url : Option String)
  | openai (api_key : String) (base_url : Option String)
  | anthropic (api_key : String) (base_url : Option String)
  | custom (api_key : String) (base_url : String)
deriving DecidableEq, Repr

/-- Which optional third-party libraries are importable in the Python
process (`google.genai`, `openai`, `anthropic`). -/
structure PyEnv where
  googleGenai : Bool
  openaiLib : Bool
  anthropicLib : Bool
deriving DecidableEq, Repr

/-- `GeminiAdapter.__init__`: raises `ImportError` when `google.genai` is
absent, otherwise stores the arguments. -/
def mkGeminiAdapter (env : PyEnv) (api_key : String) (base_url : Option String) :
    Except String Adapter :=
  if env.googleGenai then .ok (.gemini api_key base_url)
  else .error "请安装 google-genai: pip install google-genai"

/-- `OpenAIAdapter.__init__`. -/
def mkOpenAIAdapter (env : PyEnv) (api_key : String) (base_url : Option String) :
    Except String Adapter :=
  if env.openaiLib then .ok (.openai api_key base_url)
  else .error "请安装 openai: pip install openai"

/-- `AnthropicAdapter.__init__`. -/
def mkAnthropicAdapter (env : PyEnv) (api_key : String) (base_url : Option String) :
    Except String Adapter :=
  if env.anthropicLib then .ok (.anthropic api_key base_url)
  else .error "请安装 anthropic: pip install anthropic"

/-- `CustomAPIAdapter.__init__`: raises when `base_url` is falsy, then raises
`ImportError` when `openai` is absent. -/
def mkCustomAPIAdapter (env : PyEnv) (api_key : String) (base_url : Option String) :
    Except String Adapter :=
  if pyFalsyStr base_url then .error "自定义API必须提供base_url"
  else if env.openaiLib then .ok (.custom api_key (base_url.getD ""))
  else .error "请安装 openai: pip install openai"

/-- The mutable fields of the `ModelService` singleton. -/
structure ModelServiceState where
  adapter : Option Adapter
  filter_model_name : Option String
  verification_model_name : Option String
deriving DecidableEq, Repr

/-- `str.lower()` on ASCII letters (provider keys are ASCII). -/
def lowerChar (c : Char) : Char :=
  if 'A' ≤ c && c ≤ 'Z' then Char.ofNat (c.toNat + 32) else c

/-- `provider.lower()`. -/
def pyLower (s : String) : String := String.mk (s.data.map lowerChar)

/-- Python `x or default` for an optional string falling back to a literal. -/
def pyOrStr (x : Option String) (d : String) : String :=
  if pyFalsyStr x then d else x.getD ""

/-- `ModelService.initialize`.  Returns the state after the call together
with `some message` when the call raised, `none` when it returned normally.
Python mutations performed before a raise are kept in the returned state,
mirroring the source, where the `custom` branch assigns
`self.adapter`, `self.filter_model_name` and `self.verification_model_name`
and only afterwards checks `if not self.filter_model_name`. -/
def ModelService.initService (env : PyEnv) (st : ModelServiceState)
    (provider : String) (api_key : String) (base_url : Option String)
    (filter_model : Option String) (verification_model : Option String) :
    ModelServiceState × Option String :=
  let p := pyLower provider
  if p == "gemini" then
    match mkGeminiAdapter env api_key base_url with
    | .error e => (st, some e)
    | .ok a =>
      ({ adapter := some a
         filter_model_name := some (pyOrStr filter_model "gemini-2.5-flash")
         verification_model_name := some (pyOrStr verification_model "gemini-2.5-flash-lite") },
       none)
  else if p == "openai" then
    match mkOpenAIAdapter env api_key base_url with
    | .error e => (st, some e)
    | .ok a =>
      ({ adapter := some a
         filter_model_name := some (pyOrStr filter_model "gpt-4o-mini")
         verification_model_name := some (pyOrStr verification_model "gpt-4o-mini") },
       none)
  else if p == "claude" then
    match mkAnthropicAdapter env api_key base_url with
    | .error e => (st, some e)
    | .ok a =>
      ({ adapter := some a
         filter_model_name := some (pyOrStr filter_model "claude-3-haiku-20240307")
         verification_model_name := some (pyOrStr verification_model "claude-3-haiku-20240307") },
       none)
  else if p == "custom" then
    if pyFalsyStr base_url then (st, some "自定义API必须提供base_url")
    else
      match mkCustomAPIAdapter env api_key base_url with
      | .error e => (st, some e)
      | .ok a =>
        let st1 : ModelServiceState :=
          { adapter := some a
            filter_model_name := filter_model
            verification_model_name :=
              if pyFalsyStr verification_model then filter_model else verification_model }
        if pyFalsyStr st1.filter_model_name then (st1, some "自定义API必须提供filter_model")
        else (st1, none)
  else (st, some ("不支持的提供商: " ++ p))

/-! ## The AI service (`src/services/gemini_service.py`): message analysis

External effects are parameters: `decodeOk b` tells whether
`PIL.Image.open(io.BytesIO(b))` succeeds on the byte string `b`, and
`provider` is the outcome of the (single) `model_service.generate_content`
call — `.error ()` for a raised exception, `.ok text` for a returned
response. -/

/-- The dictionary `analyze_message` returns (all return paths of the
function produce this shape; `json.loads` is modelled by `parseSpamObj`,
which only accepts this shape). -/
structure AnalyzeVerdict where
  is_spam : Bool
  reason : String
deriving DecidableEq, Repr

/-- Truthiness of `message.text` (`if message.text:`). -/
def pyTruthyText : Option String → Bool
  | none => false
  | some s => s != ""

/-- Truthiness of the `image_bytes` argument (`if image_bytes:`): `None` and
the empty byte string are falsy. -/
def pyTruthyBytes : Option (List Nat) → Bool
  | none => false
  | some b => !b.isEmpty

/-- An entry of the `content` list passed to the provider. -/
inductive ContentItem where
  | textItem (s : String)
  | imageItem
deriving DecidableEq, Repr

/-- `GeminiService.analyze_message`.  Returns the result dictionary together
with whether the provider was called. -/
def analyze_message (st : ModelServiceState) (enable_ai_filter : Bool)
    (msgText : Option String) (image_bytes : Option (List Nat))
    (decodeOk : List Nat → Bool) (provider : Except Unit String) :
    AnalyzeVerdict × Bool :=
  if st.adapter.isNone || pyFalsyStr st.filter_model_name || !enable_ai_filter then
    ({ is_spam := false, reason := "AI filter disabled" }, false)
  else
    let content : List ContentItem :=
      (if pyTruthyText msgText then [.textItem (msgText.getD "")] else []) ++
      (if pyTruthyBytes image_bytes && decodeOk ((image_bytes).getD []) then [.imageItem] else [])
    if content.isEmpty then
      ({ is_spam := false, reason := "No content to analyze" }, false)
    else
      match provider with
      | .error _ => ({ is_spam := false, reason := "Analysis failed" }, true)
      | .ok response_text =>
        if response_text == "" then
          ({ is_spam := false, reason := "Analysis failed" }, true)
        else
          match parseSpamObj (cleanResponse response_text) with
          | some (b, r) => ({ is_spam := b, reason := String.mk r }, true)
          | none => ({ is_spam := false, reason := "Analysis failed - JSON parse error" }, true)

/-! ## The AI service: the local question bank and question generation

`random.choice` is modelled by an index into the bank (reduced mod its
length, which is how a uniformly drawn valid index is supplied), and
`random.shuffle` by the Fisher-Yates loop it implements
(`for i in reversed(range(1, len(x))): j = randbelow(i+1); swap x[i] x[j]`),
driven by an explicit list of random draws, the draw for position `i` being
the supplied number reduced mod `i+1`.  `json.loads` followed by the
`data['question']` / `data['correct_answer']` / `data['incorrect_answers']`
key accesses is abstracted by the `parse` function argument, applied to the
fence-stripped cleaned response text; any exception on that path
(malformed JSON, missing key, wrong type) is `none`. -/

/-- An entry of the local question bank, and equally the three parsed fields
of an AI-generated question. -/
structure QEntry where
  question : String
  correct_answer : String
  incorrect_answers : List String
deriving DecidableEq, Repr

/-- What either question-generation operation returns. -/
structure QResult where
  question : String
  correct_answer : String
  options : List String
deriving DecidableEq, Repr

/-- The 29-entry `LOCAL_VERIFICATION_QUESTIONS` table. -/
def LOCAL_VERIFICATION_QUESTIONS : List QEntry := [
  ⟨"中国的首都是哪里？", "北京", ["上海", "广州", "深圳"]⟩,
  ⟨"一年有多少个月？", "12", ["10", "11", "13"]⟩,
  ⟨"一周有多少天？", "7", ["5", "6", "8"]⟩,
  ⟨"太阳从哪个方向升起？", "东方", ["西方", "南方", "北方"]⟩,
  ⟨"水的化学式是什么？", "H2O", ["CO2", "O2", "NaCl"]⟩,
  ⟨"地球上最大的海洋是哪个？", "太平洋", ["大西洋", "印度洋", "北冰洋"]⟩,
  ⟨"哪个颜色是彩虹的第一种颜色？", "红色", ["橙色", "黄色", "绿色"]⟩,
  ⟨"人体有多少个心脏？", "1", ["2", "3", "4"]⟩,
  ⟨"哪个季节最热？", "夏天", ["春天", "秋天", "冬天"]⟩,
  ⟨"哪个是最大的行星？", "木星", ["土星", "天王星", "海王星"]⟩,
  ⟨"中国的国旗上有几颗星？", "5", ["3", "4", "6"]⟩,
  ⟨"哪个是哺乳动物？", "狗", ["鱼", "鸟", "蛇"]⟩,
  ⟨"哪个是水果？", "苹果", ["胡萝卜", "土豆", "洋葱"]⟩,
  ⟨"哪个是交通工具？", "汽车", ["桌子", "椅子", "床"]⟩,
  ⟨"哪个是颜色？", "蓝色", ["数字", "字母", "符号"]⟩,
  ⟨"以下哪个不属于行星？", "月亮", ["地球", "火星", "金星"]⟩,
  ⟨"以下哪个不属于水果？", "胡萝卜", ["苹果", "香蕉", "橙子"]⟩,
  ⟨"以下哪个不属于交通工具？", "房子", ["汽车", "飞机", "火车"]⟩,
  ⟨"以下哪个不属于颜色？", "数字", ["红色", "蓝色", "绿色"]⟩,
  ⟨"以下哪个不属于哺乳动物？", "鱼", ["猫", "狗", "牛"]⟩,
  ⟨"以下哪个不属于蔬菜？", "苹果", ["白菜", "萝卜", "黄瓜"]⟩,
  ⟨"以下哪个不属于鸟类？", "狗", ["麻雀", "鸽子", "燕子"]⟩,
  ⟨"以下哪个不属于金属？", "木头", ["铁", "铜", "铝"]⟩,
  ⟨"以下哪个不属于饮料？", "米饭", ["水", "茶", "咖啡"]⟩,
  ⟨"以下哪个不属于学习用品？", "电视", ["笔", "本子", "橡皮"]⟩,
  ⟨"以下哪个不属于运动项目？", "睡觉", ["跑步", "游泳", "篮球"]⟩,
  ⟨"以下哪个不属于季节？", "星期", ["春天", "夏天", "秋天"]⟩,
  ⟨"以下哪个不属于方向？", "上下", ["东", "南", "西"]⟩,
  ⟨"以下哪个不属于数字？", "字母", ["1", "2", "3"]⟩]

/-- Swap two positions of a list; out-of-range indices leave the list
unchanged (the shuffle below only ever uses in-range indices). -/
def swapL (l : List String) (i j : Nat) : List String :=
  match l.get? i, l.get? j with
  | some a, some b => (l.set i b).set j a
  | _, _ => l

/-- The Fisher-Yates loop of `random.shuffle`, with `i` counting down and one
random draw consumed per step (if the supplied draws run out the remaining
steps are skipped; a permutation results either way). -/
def fyAux : Nat → List Nat → List String → List String
  | 0, _, l => l
  | _ + 1, [], l => l
  | i + 1, j :: js, l => fyAux i js (swapL l (i + 1) (j % (i + 2)))

/-- `random.shuffle`, driven by the list of random draws `js`. -/
def fyShuffle (js : List Nat) (l : List String) : List String :=
  fyAux (l.length - 1) js l

/-- `GeminiService._get_local_question`: pick a bank entry, build
`options = incorrect_answers + [correct_answer]` as a fresh list and shuffle
it. -/
def _get_local_question (idx : Nat) (js : List Nat) : QResult :=
  let qd := LOCAL_VERIFICATION_QUESTIONS.getD (idx % LOCAL_VERIFICATION_QUESTIONS.length) ⟨"", "", []⟩
  let correct_answer := qd.correct_answer
  let options := fyShuffle js (qd.incorrect_answers ++ [correct_answer])
  { question := qd.question, correct_answer := correct_answer, options := options }

/-- The CAPTCHA prompt of `generate_unblock_question`, transcribed from the
source. -/
def unblockPrompt : String :=
  "\n        # 角色\n        你是一个人机验证（CAPTCHA）问题生成器。\n        # 任务\n        生成一个随机的、适合成年人的中文常识性问题，用于区分人类和机器人。问题的格式应该是多样的。\n        # 要求\n        1.  **问题格式多样性**: 你需要随机选择以下两种问题格式之一进行提问：\n            *   **a) 标准直接提问**: 例如，\"中国的首都是哪里？\"\n            *   **b) 反向排除提问**: 使用\"以下哪个不属于...？\"或类似的句式。例如，\"以下哪个不属于行星？\"\n        2.  **主题**: 问题主题应为完全随机的日常通用常识，无需限定在特定领域。\n        3.  **难度**: 问题和选项的难度应设定为\"绝大多数18岁以上母语为中文的成年人都能立即回答正确\"的水平，避免专业或冷门知识。\n        4.  **明确性**: 问题必须只有一个明确无误的正确答案。\n        5.  **答案逻辑**:\n            *   提供一个`correct_answer`（正确答案）。\n            *   提供一个包含三个字符串的列表`incorrect_answers`（干扰项）。\n            *   **对于标准问题**，所有选项应属于同一类别。\n            *   **对于反向排除问题**，三个`incorrect_answers`应属于同一类别，而`correct_answer`则是那个不属于该类别的 outlier（局外者）。\n        6.  **语言**: 所有内容必须为简体中文。\n        7.  **输出格式**: 严格按照以下JSON格式返回，不要包含任何额外的解释或文字。\n        # JSON格式示例\n        \x7b\n          \"question\": \"问题文本\",\n          \"correct_answer\": \"正确答案\",\n          \"incorrect_answers\": [\"干扰项1\", \"干扰项2\", \"干扰项3\"]\n        \x7d\n        "

/-- The CAPTCHA prompt of `generate_verification_challenge`, transcribed from
the source. -/
def verificationPrompt : String :=
  "\n        # 角色\n        你是一个人机验证（CAPTCHA）问题生成器。\n        # 任务\n        生成一个随机的、适合成年人的中文常识性问题，用于区分人类和机器人。问题的格式应该是多样的。\n        # 要求\n        1.  **问题格式多样性**: 你需要随机选择以下两种问题格式之一进行提问：\n            *   **a) 标准直接提问**: 例如，\"中国的首都是哪里？\"\n            *   **b) 反向排除提问**: 使用\"以下哪个不属于...？\"或类似的句式。例如，\"以下哪个不属于行星？\"\n        2.  **主题**: 问题主题应为完全随机的日常通用常识，无需限定在特定领域。\n        3.  **难度**: 问题和选项的难度应设定为\"绝大多数18岁以上母语为中文的成年人都能立即回答正确\"的水平，避免专业或冷门知识。\n        4.  **明确性**: 问题必须只有一个明确无误的正确答案。\n        5.  **答案逻辑**:\n            *   提供一个`correct_answer`（正确答案）。\n            *   提供一个包含三个字符串的列表`incorrect_answers`（干扰项）。\n            *   **对于标准问题**，所有选项应属于同一类别。\n            *   **对于反向排除问题**，三个`incorrect_answers`应属于同一类别，而`correct_answer`则是那个不属于该类别的 outlier（局外者）。\n        6.  **语言**: 所有内容必须为简体中文。\n        7.  **输出格式**: 严格按照以下JSON格式返回，不要包含任何额外的解释或文字。\n        # JSON格式示例\n        \x7b\n          \"question\": \"问题文本\",\n          \"correct_answer\": \"正确答案\",\n          \"incorrect_answers\": [\"干扰项1\", \"干扰项2\", \"干扰项3\"]\n        \x7d\n        "

/-- The provider request `generate_unblock_question` issues when it does not
short-circuit to the local bank: the verification model name together with
the contents list `[prompt]`. -/
def unblockRequest (st : ModelServiceState) : Option (String × List String) :=
  if st.adapter.isNone || pyFalsyStr st.verification_model_name then none
  else some (st.verification_model_name.getD "", [unblockPrompt])

/-- The provider request `generate_verification_challenge` issues when it
does not short-circuit to the local bank. -/
def verificationRequest (st : ModelServiceState) : Option (String × List String) :=
  if st.adapter.isNone || pyFalsyStr st.verification_model_name then none
  else some (st.verification_model_name.getD "", [verificationPrompt])

/-- `GeminiService.generate_unblock_question`.  `provider` is the outcome of
the `generate_content` call, `parse` abstracts `json.loads` plus the three
key accesses on the cleaned text, `idx`/`js` drive the fallback's
`random.choice` and the shared `random.shuffle`. -/
def generate_unblock_question (st : ModelServiceState)
    (provider : Except Unit String) (parse : String → Option QEntry)
    (idx : Nat) (js : List Nat) : QResult :=
  if st.adapter.isNone || pyFalsyStr st.verification_model_name then
    _get_local_question idx js
  else
    match provider with
    | .error _ => _get_local_question idx js
    | .ok response_text =>
      if response_text == "" then _get_local_question idx js
      else
        match parse (String.mk (cleanResponse response_text)) with
        | none => _get_local_question idx js
        | some data =>
          let correct_answer := data.correct_answer
          let options := fyShuffle js (data.incorrect_answers ++ [correct_answer])
          { question := data.question, correct_answer := correct_answer, options := options }

/-- `GeminiService.generate_verification_challenge`.  Translated separately
from its own source body (which differs from `generate_unblock_question`
only in the message printed when falling back). -/
def generate_verification_challenge (st : ModelServiceState)
    (provider : Except Unit String) (parse : String → Option QEntry)
    (idx : Nat) (js : List Nat) : QResult :=
  if st.adapter.isNone || pyFalsyStr st.verification_model_name then
    _get_local_question idx js
  else
    match provider with
    | .error _ => _get_local_question idx js
    | .ok response_text =>
      if response_text == "" then _get_local_question idx js
      else
        match parse (String.mk (cleanResponse response_text)) with
        | none => _get_local_question idx js
        | some data =>
          let correct_answer := data.correct_answer
          let options := fyShuffle js (data.incorrect_answers ++ [correct_answer])
          { question := data.question, correct_answer := correct_answer, options := options }

/-- The substring `"无法根据现有知识库"` checked by `generate_autoreply`. -/
def noKbToken : List Char := "无法根据现有知识库".data

/-- The substring `"抱歉"` checked by `generate_autoreply`. -/
def sorryToken : List Char := "抱歉".data

/-- `GeminiService.generate_autoreply`.  Returns the optional reply together
with whether the provider was called. -/
def generate_autoreply (st : ModelServiceState) (user_message : String)
    (knowledge_base_content : Option String) (provider : Except Unit String) :
    Option String × Bool :=
  if st.adapter.isNone || pyFalsyStr st.filter_model_name then (none, false)
  else if pyFalsyStr knowledge_base_content ||
      stripStr (knowledge_base_content.getD "") == "" then (none, false)
  else
    match provider with
    | .error _ => (none, true)
    | .ok response_text =>
      if response_text == "" then (none, true)
      else if containsSub noKbToken response_text.data ||
          containsSub sorryToken response_text.data then (none, true)
      else (some (stripStr response_text), true)

/-! ## Telegram messages and the send operations

(`src/handlers/admin_handler.py` and `src/utils/message_sender.py`.)
An inbound message carries at most one populated media kind plus optional
caption and entity lists; entity payloads are opaque and only carried
around.  An outbound call to the bot is recorded as a `SendAction` capturing
the operation and every argument the code passes. -/

/-- An opaque rich-text entity (only ever forwarded verbatim). -/
structure TgEntity where
  payload : Nat
deriving DecidableEq, Repr

/-- A photo size variant; `message.photo` is the platform's ordered size
list. -/
structure PhotoSize where
  file_id : String
deriving DecidableEq, Repr

/-- A non-photo media object: only its `file_id` is consumed. -/
structure MediaFile where
  file_id : String
deriving DecidableEq, Repr

/-- The fields of a `telegram.Message` the two dispatchers and the admin
handler read. -/
structure TgMessage where
  text : Option String
  entities : Option (List TgEntity)
  caption : Option String
  caption_entities : Option (List TgEntity)
  photo : List PhotoSize
  animation : Option MediaFile
  video : Option MediaFile
  document : Option MediaFile
  audio : Option MediaFile
  voice : Option MediaFile
  video_note : Option MediaFile
  sticker : Option MediaFile
  is_topic_message : Bool
  message_thread_id : Option Int
deriving DecidableEq, Repr

/-- Truthiness of a media-object field (`if message.video:` — `None` falsy). -/
def pyTruthyMedia : Option MediaFile → Bool
  | none => false
  | some _ => true

/-- Truthiness of `message.photo` (a possibly empty tuple: empty is falsy). -/
def pyTruthyPhoto (l : List PhotoSize) : Bool := !l.isEmpty

/-- An outbound bot call with every argument the code passes (`thread` is
`none` when the code passes no `message_thread_id`, mirroring the platform
default). -/
inductive SendAction where
  | message (chat_id : Int) (text : String) (entities : Option (List TgEntity))
      (thread : Option Int) (disable_web_page_preview : Bool)
  | photo (chat_id : Int) (file_id : String) (caption : Option String)
      (caption_entities : Option (List TgEntity)) (thread : Option Int)
  | animation (chat_id : Int) (file_id : String) (caption : Option String)
      (caption_entities : Option (List TgEntity)) (thread : Option Int)
  | video (chat_id : Int) (file_id : String) (caption : Option String)
      (caption_entities : Option (List TgEntity)) (thread : Option Int)
  | document (chat_id : Int) (file_id : String) (caption : Option String)
      (caption_entities : Option (List TgEntity)) (thread : Option Int)
  | audio (chat_id : Int) (file_id : String) (caption : Option String)
      (caption_entities : Option (List TgEntity)) (thread : Option Int)
  | voice (chat_id : Int) (file_id : String) (caption : Option String)
      (caption_entities : Option (List TgEntity)) (thread : Option Int)
  | videoNote (chat_id : Int) (file_id : String) (thread : Option Int)
  | sticker (chat_id : Int) (file_id : String) (thread : Option Int)
deriving DecidableEq, Repr

/-- The last element of the photo size list (the branch is only taken when
the list is nonempty). -/
def lastPhotoId (l : List PhotoSize) : String :=
  (l.getLastD ⟨""⟩).file_id

/-- `_send_reply_to_user` from `src/handlers/admin_handler.py`: the staff
reply is re-sent to the user's direct chat; no branch passes a
`message_thread_id`, and the text branch passes
`disable_web_page_preview=True`.  Falls through to `none` when no media kind
is populated. -/
def _send_reply_to_user (message : TgMessage) (user_id : Int) : Option SendAction :=
  if pyTruthyText message.text then
    some (.message user_id (message.text.getD "") message.entities none true)
  else if pyTruthyPhoto message.photo then
    some (.photo user_id (lastPhotoId message.photo) message.caption
      message.caption_entities none)
  else if pyTruthyMedia message.animation then
    some (.animation user_id ((message.animation.getD ⟨""⟩).file_id) message.caption
      message.caption_entities none)
  else if pyTruthyMedia message.video then
    some (.video user_id ((message.video.getD ⟨""⟩).file_id) message.caption
      message.caption_entities none)
  else if pyTruthyMedia message.document then
    some (.document user_id ((message.document.getD ⟨""⟩).file_id) message.caption
      message.caption_entities none)
  else if pyTruthyMedia message.audio then
    some (.audio user_id ((message.audio.getD ⟨""⟩).file_id) message.caption
      message.caption_entities none)
  else if pyTruthyMedia message.voice then
    some (.voice user_id ((message.voice.getD ⟨""⟩).file_id) message.caption
      message.caption_entities none)
  else if pyTruthyMedia message.video_note then
    some (.videoNote user_id ((message.video_note.getD ⟨""⟩).file_id) none)
  else if pyTruthyMedia message.sticker then
    some (.sticker user_id ((message.sticker.getD ⟨""⟩).file_id) none)
  else none

/-- `handle_admin_reply`: only acts on a present topic message whose thread
id has a persisted binding (`db.get_user_by_thread_id`, abstracted as the
`lookup` argument returning the bound user id). -/
def handle_admin_reply (update_message : Option TgMessage)
    (lookup : Option Int → Option Int) : Option SendAction :=
  match update_message with
  | none => none
  | some message =>
    if !message.is_topic_message then none
    else
      match lookup message.message_thread_id with
      | none => none
      | some user_id => _send_reply_to_user message user_id

/-- `send_message_by_type` from `src/utils/message_sender.py`: the generic
relay, dispatching on the nine media kinds in fixed order, passing the
destination thread everywhere and the link-preview flag on text; returns
`none` ("nothing sent") when no kind is populated. -/
def send_message_by_type (message : TgMessage) (chat_id : Int)
    (thread_id : Option Int) (disable_web_page_preview : Bool) : Option SendAction :=
  if pyTruthyText message.text then
    some (.message chat_id (message.text.getD "") message.entities thread_id
      disable_web_page_preview)
  else if pyTruthyPhoto message.photo then
    some (.photo chat_id (lastPhotoId message.photo) message.caption
      message.caption_entities thread_id)
  else if pyTruthyMedia message.animation then
    some (.animation chat_id ((message.animation.getD ⟨""⟩).file_id) message.caption
      message.caption_entities thread_id)
  else if pyTruthyMedia message.video then
    some (.video chat_id ((message.video.getD ⟨""⟩).file_id) message.caption
      message.caption_entities thread_id)
  else if pyTruthyMedia message.document then
    some (.document chat_id ((message.document.getD ⟨""⟩).file_id) message.caption
      message.caption_entities thread_id)
  else if pyTruthyMedia message.audio then
    some (.audio chat_id ((message.audio.getD ⟨""⟩).file_id) message.caption
      message.caption_entities thread_id)
  else if pyTruthyMedia message.voice then
    some (.voice chat_id ((message.voice.getD ⟨""⟩).file_id) message.caption
      message.caption_entities thread_id)
  else if pyTruthyMedia message.video_note then
    some (.videoNote chat_id ((message.video_note.getD ⟨""⟩).file_id) thread_id)
  else if pyTruthyMedia message.sticker then
    some (.sticker chat_id ((message.sticker.getD ⟨""⟩).file_id) thread_id)
  else none

/-! ## The filtered-message listing (`view_filtered`) -/

/-- A row of the `filtered_messages` table as the handler reads it. -/
structure FilteredMsg where
  first_name : Option String
  username : Option String
  reason : Option String
  content : Option String
  filtered_at : Option String
deriving DecidableEq, Repr

/-- `msg.get(k) or 'N/A'`. -/
def orNA (x : Option String) : String := if pyFalsyStr x then "N/A" else x.getD ""

/-- One listing block of `_format_filtered_messages` (index is 1-based). -/
def formatOneFiltered (idx : Nat) (msg : FilteredMsg) : String :=
  let content := orNA msg.content
  let content := if content.length > 100 then (String.mk (content.data.take 100)) ++ "..." else content
  "【" ++ toString idx ++ "】\n" ++
  "用户: " ++ orNA msg.first_name ++ " (@" ++ orNA msg.username ++ ")\n" ++
  "原因: " ++ orNA msg.reason ++ "\n" ++
  "内容: " ++ content ++ "\n" ++
  "时间: " ++ orNA msg.filtered_at ++ "\n\n"

/-- Number the rows 1,2,... as `enumerate(messages, 1)` does. -/
def numberFrom : Nat → List FilteredMsg → List (Nat × FilteredMsg)
  | _, [] => []
  | i, m :: ms => (i, m) :: numberFrom (i + 1) ms

/-- `_format_filtered_messages`. -/
def _format_filtered_messages (messages : List FilteredMsg) (page total_pages : Nat) : String :=
  "被过滤的消息 (第 " ++ toString page ++ "/" ++ toString total_pages ++ " 页):\n\n" ++
  String.join ((numberFrom 1 messages).map (fun p => formatOneFiltered p.1 p.2))

/-- An inline keyboard button: label and callback payload. -/
structure IButton where
  label : String
  callback_data : String
deriving DecidableEq, Repr

/-- `_get_filtered_messages_keyboard`: `none` models returning no reply
markup. -/
def _get_filtered_messages_keyboard (page total_pages : Nat) :
    Option (List (List IButton)) :=
  if total_pages ≤ 1 then none
  else
    let buttons : List IButton :=
      (if page > 1 then [⟨"上一页", "filtered_page_" ++ toString (page - 1)⟩] else []) ++
      (if page < total_pages then [⟨"下一页", "filtered_page_" ++ toString (page + 1)⟩] else [])
    if buttons.isEmpty then none else some [buttons]

/-- The observable outcome of `view_filtered`. -/
inductive ViewOutcome where
  | noPermission
  | nothingFound
  | listing (text : String) (keyboard : Option (List (List IButton)))
deriving DecidableEq, Repr

/-- `view_filtered`: the database is abstracted by the caller's admin flag,
the total filtered count, and the page fetch function
(`get_filtered_messages limit offset`). -/
def view_filtered (is_admin : Bool) (total_count : Nat)
    (fetch : Nat → Nat → List FilteredMsg) : ViewOutcome :=
  if !is_admin then .noPermission
  else
    let MESSAGES_PER_PAGE := 5
    let page := 1
    if total_count == 0 then .nothingFound
    else
      let total_pages := (total_count + MESSAGES_PER_PAGE - 1) / MESSAGES_PER_PAGE
      let offset := (page - 1) * MESSAGES_PER_PAGE
      let messages := fetch MESSAGES_PER_PAGE offset
      if messages.isEmpty then .nothingFound
      else
        .listing (_format_filtered_messages messages page total_pages)
          (_get_filtered_messages_keyboard page total_pages)

/-- Modelled from the spec: the spec's "total pages = ceiling(total_count / 5)",
written as the words say, for comparison with the code's
`(total_count + MESSAGES_PER_PAGE - 1) // MESSAGES_PER_PAGE`. -/
def specCeilPages (total_count : Nat) : Nat :=
  if total_count % 5 == 0 then total_count / 5 else total_count / 5 + 1

/-! ## A heap model for `_get_local_question`'s effect on the bank

Python lists are mutable heap objects; `question_data['incorrect_answers'] +
[correct_answer]` allocates a fresh list, and `random.shuffle(options)`
mutates that fresh list in place.  To state the frame property (the bank is
never mutated) the list values are put on an explicit heap: a bank entry
stores a reference to its `incorrect_answers` list, `+` allocates, and
`random.shuffle` writes through the reference it is given. -/

/-- A heap of string lists with an allocation counter. -/
structure PyHeap where
  next : Nat
  mem : Nat → List String

/-- Allocate a fresh list cell. -/
def heapAlloc (l : List String) (h : PyHeap) : Nat × PyHeap :=
  (h.next, ⟨h.next + 1, fun k => if k = h.next then l else h.mem k⟩)

/-- Overwrite an existing cell (in-place list mutation). -/
def heapWrite (r : Nat) (l : List String) (h : PyHeap) : PyHeap :=
  ⟨h.next, fun k => if k = r then l else h.mem k⟩

/-- A bank entry with its `incorrect_answers` stored by reference. -/
structure BankEntryRef where
  question : String
  correct_answer : String
  incorrect_ref : Nat
deriving DecidableEq, Repr

/-- `_get_local_question` against the heap model: read the chosen entry's
incorrect list, allocate the fresh `options` list, shuffle it in place, and
return its contents. -/
def getLocalQuestionH (bank : List BankEntryRef) (idx : Nat) (js : List Nat)
    (h : PyHeap) : QResult × PyHeap :=
  let qd := bank.getD (idx % bank.length) ⟨"", "", 0⟩
  let correct_answer := qd.correct_answer
  let incorrect := h.mem qd.incorrect_ref
  let (r, h1) := heapAlloc (incorrect ++ [correct_answer]) h
  let h2 := heapWrite r (fyShuffle js (h1.mem r)) h1
  ({ question := qd.question, correct_answer := correct_answer, options := h2.mem r }, h2)

/-- Run a sequence of `_get_local_question` calls (each with its own random
choices) against the heap. -/
def runLocalCalls (bank : List BankEntryRef) : List (Nat × List Nat) → PyHeap → PyHeap
  | [], h => h
  | c :: cs, h => runLocalCalls bank cs (getLocalQuestionH bank c.1 c.2 h).2

/-! ## Statement-support definitions for the fenced-JSON property

These describe the *inputs* quantified over by the code-fence claim: a JSON
object text of the shape the analyzer consumes, with explicit whitespace
chunks between tokens, wrapped in leading/trailing fence markup. -/

/-- Every character is whitespace. -/
def allWs (xs : List Char) : Prop := ∀ c ∈ xs, wsChar c = true

/-- No three consecutive backticks occur anywhere in the list. -/
def tripleFree : List Char → Bool
  | [] => true
  | x :: rest => !beginsL tick3 (x :: rest) && tripleFree rest

/-- A character that stands for itself inside a JSON string literal: not a
quote, not a backslash, not a control character. -/
def plainChar (c : Char) : Bool := c != '"' && c != '\\' && !(c.toNat < 32)

/-- Well-formedness of an encoded JSON string-literal body: every character
either stands for itself or opens one of the supported two-character escape
sequences (`\" \\ \/ \b \f \n \r \t`), so the body is exactly what can stand
between the quotes of a string literal in the modelled `json.loads`
fragment. -/
def litBodyOk : List Char → Bool
  | [] => true
  | c :: rest =>
    if c = '\\' then
      match rest with
      | [] => false
      | e :: rest2 => (jsonEsc e).isSome && litBodyOk rest2
    else plainChar c && litBodyOk rest

/-- The decoded value of a well-formed encoded string-literal body — the
string `json.loads` produces for it. -/
def decodeLit : List Char → List Char
  | [] => []
  | c :: rest =>
    if c = '\\' then
      match rest with
      | [] => []
      | e :: rest2 => (jsonEsc e).getD e :: decodeLit rest2
    else c :: decodeLit rest

/-- A JSON boolean token. -/
def boolTok (b : Bool) : List Char :=
  if b then ['t', 'r', 'u', 'e'] else ['f', 'a', 'l', 's', 'e']

/-- The text of the JSON object `\x7b"is_spam": b, "reason": "r"\x7d` with
explicit whitespace chunks `w1` … `w8` between consecutive tokens. -/
def spamObjText (b : Bool) (r w1 w2 w3 w4 w5 w6 w7 w8 : List Char) : List Char :=
  '\x7b' :: (w1 ++ (keyIsSpam ++ (w2 ++ (':' :: (w3 ++ (boolTok b ++ (w4 ++ (',' ::
    (w5 ++ (keyReason ++ (w6 ++ (':' :: (w7 ++ ('"' :: (r ++ ('"' ::
    (w8 ++ ['\x7d'])))))))))))))))))

/-- A provider response consisting of an opening fence `fo` (`\x60\x60\x60json`
or `\x60\x60\x60`), a whitespace chunk, the JSON text, a whitespace chunk,
and the closing fence. -/
def fencedResponse (fo w0 core w9 : List Char) : List Char :=
  fo ++ (w0 ++ (core ++ (w9 ++ tick3)))

/-- The 29-entry local bank laid out on the heap: cell `i` holds entry `i`'s
`incorrect_answers` list and the allocation counter sits just past the
table. -/
def localBankHeap : PyHeap :=
  ⟨LOCAL_VERIFICATION_QUESTIONS.length,
   fun k => (LOCAL_VERIFICATION_QUESTIONS.getD k ⟨"", "", []⟩).incorrect_answers⟩

/-- The bank with entry `i` referring to heap cell `i`. -/
def localBankRefs : List BankEntryRef :=
  (List.range LOCAL_VERIFICATION_QUESTIONS.length).map
    (fun i =>
      ⟨(LOCAL_VERIFICATION_QUESTIONS.getD i ⟨"", "", []⟩).question,
       (LOCAL_VERIFICATION_QUESTIONS.getD i ⟨"", "", []⟩).correct_answer, i⟩)

/-- Occurrence count of `c` in a list of strings (used to state the
"contains the correct answer exactly once" invariant). -/
def countL (c : String) : List String → Nat
  | [] => 0
  | x :: xs => (if x = c then 1 else 0) + countL c xs

/-! ## Lemmas: list surgery and the Fisher-Yates shuffle -/

theorem get?_lt {α : Type} : ∀ (l : List α) (i : Nat) (a : α),
    l.get? i = some a → i < l.length := by
  intro l
  induction l with
  | nil => intro i a h; simp [List.get?] at h
  | cons x xs ih =>
    intro i a h
    cases i with
    | zero => simp
    | succ n =>
      simp only [List.get?] at h
      simpa using Nat.succ_lt_succ (ih n a h)

theorem get?_set_self {α : Type} : ∀ (l : List α) (i : Nat) (b : α),
    i < l.length → (l.set i b).get? i = some b := by
  intro l
  induction l with
  | nil => intro i b h; simp at h
  | cons x xs ih =>
    intro i b h
    cases i with
    | zero => rfl
    | succ n => simpa using ih n b (by simpa using h)

theorem get?_set_other {α : Type} : ∀ (l : List α) (i j : Nat) (b : α),
    i ≠ j → (l.set i b).get? j = l.get? j := by
  intro l
  induction l with
  | nil => intro i j b _; simp
  | cons x xs ih =>
    intro i j b hij
    cases i with
    | zero =>
      cases j with
      | zero => exact absurd rfl hij
      | succ m => rfl
    | succ n =>
      cases j with
      | zero => rfl
      | succ m =>
        simpa using ih n m b (fun h => hij (by rw [h]))

theorem countL_set : ∀ (l : List String) (i : Nat) (a b c : String),
    l.get? i = some a →
    countL c (l.set i b) + (if a = c then 1 else 0) =
      countL c l + (if b = c then 1 else 0) := by
  intro l
  induction l with
  | nil => intro i a b c h; simp [List.get?] at h
  | cons x xs ih =>
    intro i a b c h
    cases i with
    | zero =>
      simp only [List.get?] at h
      injection h with h
      subst h
      simp only [List.set, countL]
      omega
    | succ n =>
      simp only [List.get?] at h
      have hrec := ih n a b c h
      simp only [List.set, countL]
      omega

theorem countL_swapL (l : List String) (i j : Nat) (c : String) :
    countL c (swapL l i j) = countL c l := by
  unfold swapL
  cases h1 : l.get? i with
  | none => rfl
  | some a =>
    cases h2 : l.get? j with
    | none => rfl
    | some b =>
      simp only
      have hmid : (l.set i b).get? j = some b := by
        by_cases hij : i = j
        · subst hij
          exact get?_set_self l i b (get?_lt l i a h1)
        · rw [get?_set_other l i j b hij, h2]
      have e1 := countL_set (l.set i b) j b a c hmid
      have e2 := countL_set l i a b c h1
      omega

theorem length_swapL (l : List String) (i j : Nat) :
    (swapL l i j).length = l.length := by
  unfold swapL
  cases h1 : l.get? i <;> cases h2 : l.get? j <;> simp

theorem countL_fyAux (c : String) : ∀ (i : Nat) (js : List Nat) (l : List String),
    countL c (fyAux i js l) = countL c l := by
  intro i
  induction i with
  | zero => intro js l; rfl
  | succ n ih =>
    intro js l
    cases js with
    | nil => rfl
    | cons j js => rw [fyAux, ih, countL_swapL]

theorem length_fyAux : ∀ (i : Nat) (js : List Nat) (l : List String),
    (fyAux i js l).length = l.length := by
  intro i
  induction i with
  | zero => intro js l; rfl
  | succ n ih =>
    intro js l
    cases js with
    | nil => rfl
    | cons j js => rw [fyAux, ih, length_swapL]

theorem countL_fyShuffle (js : List Nat) (l : List String) (c : String) :
    countL c (fyShuffle js l) = countL c l := countL_fyAux c _ js l

theorem length_fyShuffle (js : List Nat) (l : List String) :
    (fyShuffle js l).length = l.length := length_fyAux _ js l

theorem countL_append (c : String) (l1 l2 : List String) :
    countL c (l1 ++ l2) = countL c l1 + countL c l2 := by
  induction l1 with
  | nil => simp [countL]
  | cons x xs ih => simp [countL, ih]; omega

theorem countL_eq_zero_of_nmem {c : String} : ∀ {l : List String},
    c ∉ l → countL c l = 0 := by
  intro l
  induction l with
  | nil => intro _; rfl
  | cons x xs ih =>
    intro h
    simp only [List.mem_cons, not_or] at h
    have hx : x ≠ c := fun he => h.1 he.symm
    simp only [countL, if_neg hx, ih h.2]

/-- Every entry of the local bank has three distractors, none equal to the
correct answer. -/
theorem localBankEntriesOk : ∀ e ∈ LOCAL_VERIFICATION_QUESTIONS,
    e.incorrect_answers.length = 3 ∧ e.correct_answer ∉ e.incorrect_answers := by
  decide

/-- The fallback bank always yields 4 options containing the correct answer
exactly once. -/
theorem localQuestionOk (idx : Nat) (js : List Nat) :
    (_get_local_question idx js).options.length = 4 ∧
    countL (_get_local_question idx js).correct_answer (_get_local_question idx js).options = 1 := by
  have hlt : idx % LOCAL_VERIFICATION_QUESTIONS.length < LOCAL_VERIFICATION_QUESTIONS.length :=
    Nat.mod_lt _ (by decide)
  have hmem : LOCAL_VERIFICATION_QUESTIONS.getD (idx % LOCAL_VERIFICATION_QUESTIONS.length)
      ⟨"", "", []⟩ ∈ LOCAL_VERIFICATION_QUESTIONS := by
    rw [List.getD_eq_get _ _ hlt]
    exact List.get_mem _ _ _
  obtain ⟨h3, hnin⟩ := localBankEntriesOk _ hmem
  constructor
  · simp only [_get_local_question, length_fyShuffle, List.length_append, h3]
    simp
  · simp only [_get_local_question, countL_fyShuffle, countL_append,
      countL_eq_zero_of_nmem hnin, countL]
    simp

/-- C1 (amended): every value returned by the local fallback bank
(`_get_local_question`) has an `options` list of exactly 4 entries containing
`correct_answer` exactly once; the AI paths of `generate_unblock_question`
and `generate_verification_challenge` satisfy the same invariant provided
the parsed response's `incorrect_answers` list has exactly 3 entries, none
equal to `correct_answer` — a condition the code does not validate (see the
counterexample). -/
theorem c1_options_invariant :
    (∀ idx js, (_get_local_question idx js).options.length = 4 ∧
      countL (_get_local_question idx js).correct_answer (_get_local_question idx js).options = 1)
    ∧ (∀ (st : ModelServiceState) (provider : Except Unit String)
        (parse : String → Option QEntry) (idx : Nat) (js : List Nat)
        (resp : String) (data : QEntry),
        st.adapter.isNone = false → pyFalsyStr st.verification_model_name = false →
        provider = .ok resp → (resp == "") = false →
        parse (String.mk (cleanResponse resp)) = some data →
        data.incorrect_answers.length = 3 →
        data.correct_answer ∉ data.incorrect_answers →
        (generate_unblock_question st provider parse idx js).options.length = 4 ∧
        countL (generate_unblock_question st provider parse idx js).correct_answer
          (generate_unblock_question st provider parse idx js).options = 1)
    ∧ (∀ (st : ModelServiceState) (provider : Except Unit String)
        (parse : String → Option QEntry) (idx : Nat) (js : List Nat)
        (resp : String) (data : QEntry),
        st.adapter.isNone = false → pyFalsyStr st.verification_model_name = false →
        provider = .ok resp → (resp == "") = false →
        parse (String.mk (cleanResponse resp)) = some data →
        data.incorrect_answers.length = 3 →
        data.correct_answer ∉ data.incorrect_answers →
        (generate_verification_challenge st provider parse idx js).options.length = 4 ∧
        countL (generate_verification_challenge st provider parse idx js).correct_answer
          (generate_verification_challenge st provider parse idx js).options = 1) := by
  refine ⟨fun idx js => localQuestionOk idx js, ?_, ?_⟩
  · intro st provider parse idx js resp data hA hV hp hr hparse h3 hnin
    subst hp
    simp only [generate_unblock_question, hA, hV, Bool.or_self, Bool.false_or,
      Bool.or_false, if_neg Bool.false_ne_true, hr, hparse]
    constructor
    · simp [length_fyShuffle, h3]
    · simp only [countL_fyShuffle, countL_append, countL_eq_zero_of_nmem hnin, countL]
      simp
  · intro st provider parse idx js resp data hA hV hp hr hparse h3 hnin
    subst hp
    simp only [generate_verification_challenge, hA, hV, Bool.or_self, Bool.false_or,
      Bool.or_false, if_neg Bool.false_ne_true, hr, hparse]
    constructor
    · simp [length_fyShuffle, h3]
    · simp only [countL_fyShuffle, countL_append, countL_eq_zero_of_nmem hnin, countL]
      simp

/-- C1 counterexample: an AI response parsing to
`correct_answer = "北京"`, `incorrect_answers = ["北京", "上海", "广州"]`
yields an options list containing the correct answer twice — the code never
validates the parsed fields, so "contains correct_answer exactly once" fails
on the AI path. -/
theorem c1_counterexample :
    countL
      (generate_unblock_question ⟨some (.gemini "k" none), some "f", some "v"⟩ (.ok "x")
        (fun _ => some ⟨"q", "北京", ["北京", "上海", "广州"]⟩) 0 [0, 0, 0]).correct_answer
      (generate_unblock_question ⟨some (.gemini "k" none), some "f", some "v"⟩ (.ok "x")
        (fun _ => some ⟨"q", "北京", ["北京", "上海", "广州"]⟩) 0 [0, 0, 0]).options = 2 ∧
    (2 : Nat) ≠ 1 := by
  exact ⟨by decide, by decide⟩

/-- C1 witness: the amended AI-path statement applied at a concrete
well-formed parsed response. -/
theorem c1_options_invariant_witness :
    (generate_unblock_question ⟨some (.gemini "k" none), some "f", some "v"⟩ (.ok "x")
      (fun _ => some ⟨"q", "东", ["西", "南", "北"]⟩) 0 [1, 2, 0]).options.length = 4 ∧
    countL
      (generate_unblock_question ⟨some (.gemini "k" none), some "f", some "v"⟩ (.ok "x")
        (fun _ => some ⟨"q", "东", ["西", "南", "北"]⟩) 0 [1, 2, 0]).correct_answer
      (generate_unblock_question ⟨some (.gemini "k" none), some "f", some "v"⟩ (.ok "x")
        (fun _ => some ⟨"q", "东", ["西", "南", "北"]⟩) 0 [1, 2, 0]).options = 1 :=
  c1_options_invariant.2.1 ⟨some (.gemini "k" none), some "f", some "v"⟩ (.ok "x")
    (fun _ => some ⟨"q", "东", ["西", "南", "北"]⟩) 0 [1, 2, 0] "x"
    ⟨"q", "东", ["西", "南", "北"]⟩ rfl rfl rfl (by decide) rfl (by decide) (by decide)

/-- C2 (amended): `ModelService.initialize` leaves the adapter and both
model-name slots exactly as they were whenever it raises for an unsupported
provider key, or for provider `custom` with an absent base URL.  (In the
remaining configuration-error case — provider `custom` with a base URL but
no filter model — the raise happens only after the whole triple has been
overwritten, see the counterexample.) -/
theorem c2_initialize_atomicity (env : PyEnv) (st : ModelServiceState)
    (provider api_key : String) (base_url filter_model verification_model : Option String) :
    (pyLower provider ∉ (["gemini", "openai", "claude", "custom"] : List String) →
      ModelService.initService env st provider api_key base_url filter_model verification_model =
        (st, some ("不支持的提供商: " ++ pyLower provider)))
    ∧ (pyLower provider = "custom" → pyFalsyStr base_url = true →
      ModelService.initService env st provider api_key base_url filter_model verification_model =
        (st, some "自定义API必须提供base_url")) := by
  constructor
  · intro h
    have hg : pyLower provider ≠ "gemini" := fun he => h (by simp [he])
    have ho : pyLower provider ≠ "openai" := fun he => h (by simp [he])
    have hc : pyLower provider ≠ "claude" := fun he => h (by simp [he])
    have hcu : pyLower provider ≠ "custom" := fun he => h (by simp [he])
    simp [ModelService.initService, hg, ho, hc, hcu]
  · intro h hb
    simp [ModelService.initService, h, hb]

/-- C2 counterexample: initializing with provider `custom`, a base URL, but
no filter model raises a configuration error, yet the adapter and both
model-name slots have already been replaced — the state differs from the
pre-call state, refuting "the fields are left exactly as they were". -/
theorem c2_counterexample :
    (ModelService.initService ⟨true, true, true⟩
        ⟨some (.gemini "oldkey" none), some "oldf", some "oldv"⟩
        "custom" "key" (some "https://x.example/v1") none none).2 =
      some "自定义API必须提供filter_model" ∧
    (ModelService.initService ⟨true, true, true⟩
        ⟨some (.gemini "oldkey" none), some "oldf", some "oldv"⟩
        "custom" "key" (some "https://x.example/v1") none none).1 ≠
      ⟨some (.gemini "oldkey" none), some "oldf", some "oldv"⟩ := by
  exact ⟨by decide, by decide⟩

/-- C2 witness: the unsupported-provider branch at a concrete input. -/
theorem c2_initialize_atomicity_witness :
    ModelService.initService ⟨true, true, true⟩ ⟨none, none, none⟩ "bogus" "k" none none none =
      (⟨none, none, none⟩, some ("不支持的提供商: " ++ pyLower "bogus")) :=
  (c2_initialize_atomicity ⟨true, true, true⟩ ⟨none, none, none⟩ "bogus" "k" none none none).1
    (by decide)

/-- C4: `analyze_message` is fail-open on its short-circuit branches: with no
adapter, no filter model, or the feature flag off it returns the
"AI filter disabled" verdict without calling the provider, regardless of
message content; otherwise, with no text and image bytes absent or failing
to decode, it returns the "No content to analyze" verdict without calling
the provider. -/
theorem c4_analyze_fail_open (st : ModelServiceState) (flag : Bool)
    (msgText : Option String) (image_bytes : Option (List Nat))
    (decodeOk : List Nat → Bool) (provider : Except Unit String) :
    ((st.adapter.isNone || pyFalsyStr st.filter_model_name || !flag) = true →
      analyze_message st flag msgText image_bytes decodeOk provider =
        ({ is_spam := false, reason := "AI filter disabled" }, false))
    ∧ ((st.adapter.isNone || pyFalsyStr st.filter_model_name || !flag) = false →
      pyTruthyText msgText = false →
      (image_bytes = none ∨ ∃ b, image_bytes = some b ∧ decodeOk b = false) →
      analyze_message st flag msgText image_bytes decodeOk provider =
        ({ is_spam := false, reason := "No content to analyze" }, false)) := by
  constructor
  · intro h
    simp [analyze_message, h]
  · intro h htext himg
    rcases himg with h0 | ⟨b, hb, hdb⟩
    · subst h0
      simp [analyze_message, h, htext, pyTruthyBytes]
    · subst hb
      simp [analyze_message, h, htext, hdb]

/-- C4 witness: with no adapter configured, an abusive text is still passed
through as non-spam with the diagnostic reason, and no provider call is
made. -/
theorem c4_analyze_fail_open_witness :
    analyze_message ⟨none, none, none⟩ true (some "一些明显的辱骂内容") none
      (fun _ => false) (.ok "resp") =
      ({ is_spam := false, reason := "AI filter disabled" }, false) :=
  (c4_analyze_fail_open ⟨none, none, none⟩ true (some "一些明显的辱骂内容") none
    (fun _ => false) (.ok "resp")).1 (by decide)

/-- C5: `generate_autoreply` returns an absent reply exactly when no adapter
or no filter model is configured, the knowledge base is absent or blank, the
provider call fails or yields an empty response, or the response contains
"无法根据现有知识库" or "抱歉" anywhere; in every remaining case it returns
the response with surrounding whitespace trimmed.  The early conditions
also make the call return without contacting the provider. -/
theorem c5_autoreply_absence (st : ModelServiceState) (user_message : String)
    (kb : Option String) (provider : Except Unit String) :
    ((generate_autoreply st user_message kb provider).1 = none ↔
      ((st.adapter.isNone || pyFalsyStr st.filter_model_name) = true ∨
       (pyFalsyStr kb || (stripStr (kb.getD "") == "")) = true ∨
       provider = .error () ∨
       provider = .ok "" ∨
       (∃ resp, provider = .ok resp ∧
         (containsSub noKbToken resp.data || containsSub sorryToken resp.data) = true)))
    ∧ (∀ resp, provider = .ok resp →
        (st.adapter.isNone || pyFalsyStr st.filter_model_name) = false →
        (pyFalsyStr kb || (stripStr (kb.getD "") == "")) = false →
        (resp == "") = false →
        (containsSub noKbToken resp.data || containsSub sorryToken resp.data) = false →
        generate_autoreply st user_message kb provider = (some (stripStr resp), true))
    ∧ ((st.adapter.isNone || pyFalsyStr st.filter_model_name) = true ∨
        (pyFalsyStr kb || (stripStr (kb.getD "") == "")) = true →
        (generate_autoreply st user_message kb provider).2 = false) := by
  refine ⟨?_, ?_, ?_⟩
  · by_cases h1 : (st.adapter.isNone || pyFalsyStr st.filter_model_name) = true
    · simp [generate_autoreply, h1]
    · rw [Bool.not_eq_true] at h1
      by_cases h2 : (pyFalsyStr kb || (stripStr (kb.getD "") == "")) = true
      · simp [generate_autoreply, h1, h2]
      · rw [Bool.not_eq_true] at h2
        rcases provider with u | resp
        · cases u
          simp [generate_autoreply, h1, h2]
        · by_cases h3 : (resp == "") = true
          · rw [beq_iff_eq] at h3
            subst h3
            simp [generate_autoreply, h1, h2]
          · rw [Bool.not_eq_true] at h3
            by_cases h4 : (containsSub noKbToken resp.data || containsSub sorryToken resp.data) = true
            · constructor
              · intro _
                exact Or.inr (Or.inr (Or.inr (Or.inr ⟨resp, rfl, h4⟩)))
              · intro _
                simp [generate_autoreply, h1, h2, h3, h4]
            · rw [Bool.not_eq_true] at h4
              constructor
              · intro habs
                have hval : (generate_autoreply st user_message kb (Except.ok resp)).1 =
                    some (stripStr resp) := by
                  simp [generate_autoreply, h1, h2, h3, h4]
                rw [hval] at habs
                exact absurd habs (Option.some_ne_none _)
              · intro hrhs
                exfalso
                rcases hrhs with h | h | h | h | ⟨r, hr, hc⟩
                · rw [h1] at h; exact Bool.false_ne_true h
                · rw [h2] at h; exact Bool.false_ne_true h
                · exact Except.noConfusion h
                · have he : resp = "" := by injection h
                  rw [he] at h3; simp at h3
                · have he : resp = r := by injection hr
                  rw [← he] at hc
                  rw [h4] at hc
                  exact Bool.false_ne_true hc
  · intro resp hp h1 h2 h3 h4
    subst hp
    simp [generate_autoreply, h1, h2, h3, h4]
  · intro h
    rcases h with h | h
    · simp [generate_autoreply, h]
    · by_cases h1 : (st.adapter.isNone || pyFalsyStr st.filter_model_name) = true
      · simp [generate_autoreply, h1]
      · rw [Bool.not_eq_true] at h1
        simp [generate_autoreply, h1, h]

/-- C5 witness: a configured service, nonblank knowledge base, and a clean
response yield the trimmed reply. -/
theorem c5_autoreply_absence_witness :
    generate_autoreply ⟨some (.gemini "k" none), some "f", some "v"⟩ "问题"
      (some "知识库内容") (.ok "  回复内容  ") = (some (stripStr "  回复内容  "), true) :=
  (c5_autoreply_absence ⟨some (.gemini "k" none), some "f", some "v"⟩ "问题"
    (some "知识库内容") (.ok "  回复内容  ")).2.1 "  回复内容  " rfl (by decide) (by decide)
    (by decide) (by decide)

/-- C7: `send_message_by_type` dispatches on message kind in the fixed
first-match-wins order text, photo, animation, video, document, audio,
voice, video-note, sticker; with none populated it sends nothing and
returns an explicit `none`; photo sends the last photo-size entry with
caption and caption entities; video-note and sticker send the file with no
caption. -/
theorem c7_send_dispatch (m : TgMessage) (chat_id : Int) (thread_id : Option Int)
    (dwpp : Bool) :
    (pyTruthyText m.text = true →
      send_message_by_type m chat_id thread_id dwpp =
        some (.message chat_id (m.text.getD "") m.entities thread_id dwpp))
    ∧ (pyTruthyText m.text = false → pyTruthyPhoto m.photo = true →
      send_message_by_type m chat_id thread_id dwpp =
        some (.photo chat_id (lastPhotoId m.photo) m.caption m.caption_entities thread_id))
    ∧ (pyTruthyText m.text = false → pyTruthyPhoto m.photo = false →
      pyTruthyMedia m.animation = true →
      send_message_by_type m chat_id thread_id dwpp =
        some (.animation chat_id ((m.animation.getD ⟨""⟩).file_id) m.caption
          m.caption_entities thread_id))
    ∧ (pyTruthyText m.text = false → pyTruthyPhoto m.photo = false →
      pyTruthyMedia m.animation = false → pyTruthyMedia m.video = true →
      send_message_by_type m chat_id thread_id dwpp =
        some (.video chat_id ((m.video.getD ⟨""⟩).file_id) m.caption
          m.caption_entities thread_id))
    ∧ (pyTruthyText m.text = false → pyTruthyPhoto m.photo = false →
      pyTruthyMedia m.animation = false → pyTruthyMedia m.video = false →
      pyTruthyMedia m.document = true →
      send_message_by_type m chat_id thread_id dwpp =
        some (.document chat_id ((m.document.getD ⟨""⟩).file_id) m.caption
          m.caption_entities thread_id))
    ∧ (pyTruthyText m.text = false → pyTruthyPhoto m.photo = false →
      pyTruthyMedia m.animation = false → pyTruthyMedia m.video = false →
      pyTruthyMedia m.document = false → pyTruthyMedia m.audio = true →
      send_message_by_type m chat_id thread_id dwpp =
        some (.audio chat_id ((m.audio.getD ⟨""⟩).file_id) m.caption
          m.caption_entities thread_id))
    ∧ (pyTruthyText m.text = false → pyTruthyPhoto m.photo = false →
      pyTruthyMedia m.animation = false → pyTruthyMedia m.video = false →
      pyTruthyMedia m.document = false → pyTruthyMedia m.audio = false →
      pyTruthyMedia m.voice = true →
      send_message_by_type m chat_id thread_id dwpp =
        some (.voice chat_id ((m.voice.getD ⟨""⟩).file_id) m.caption
          m.caption_entities thread_id))
    ∧ (pyTruthyText m.text = false → pyTruthyPhoto m.photo = false →
      pyTruthyMedia m.animation = false → pyTruthyMedia m.video = false →
      pyTruthyMedia m.document = false → pyTruthyMedia m.audio = false →
      pyTruthyMedia m.voice = false → pyTruthyMedia m.video_note = true →
      send_message_by_type m chat_id thread_id dwpp =
        some (.videoNote chat_id ((m.video_note.getD ⟨""⟩).file_id) thread_id))
    ∧ (pyTruthyText m.text = false → pyTruthyPhoto m.photo = false →
      pyTruthyMedia m.animation = false → pyTruthyMedia m.video = false →
      pyTruthyMedia m.document = false → pyTruthyMedia m.audio = false →
      pyTruthyMedia m.voice = false → pyTruthyMedia m.video_note = false →
      pyTruthyMedia m.sticker = true →
      send_message_by_type m chat_id thread_id dwpp =
        some (.sticker chat_id ((m.sticker.getD ⟨""⟩).file_id) thread_id))
    ∧ (pyTruthyText m.text = false → pyTruthyPhoto m.photo = false →
      pyTruthyMedia m.animation = false → pyTruthyMedia m.video = false →
      pyTruthyMedia m.document = false → pyTruthyMedia m.audio = false →
      pyTruthyMedia m.voice = false → pyTruthyMedia m.video_note = false →
      pyTruthyMedia m.sticker = false →
      send_message_by_type m chat_id thread_id dwpp = none) := by
  refine ⟨?_, ?_, ?_, ?_, ?_, ?_, ?_, ?_, ?_, ?_⟩ <;>
    · intros
      simp [send_message_by_type, *]

/-- C7 witness: a message with only a sticker populated is relayed as a
caption-less sticker send. -/
theorem c7_send_dispatch_witness :
    send_message_by_type
      ⟨none, none, none, none, [], none, none, none, none, none, none,
        some ⟨"stk"⟩, false, none⟩ 5 (some 7) false =
      some (.sticker 5 "stk" (some 7)) :=
  (c7_send_dispatch
    ⟨none, none, none, none, [], none, none, none, none, none, none,
      some ⟨"stk"⟩, false, none⟩ 5 (some 7) false).2.2.2.2.2.2.2.2.1
    rfl rfl rfl rfl rfl rfl rfl rfl rfl

/-- C3 (amended): for a staff message in a bound forum topic the admin reply
relay sends to the user's direct chat with no destination topic for every
media kind, preserving text/entities or caption/caption-entities (none for
video-note and sticker) — but for text it passes
`disable_web_page_preview=True`, i.e. it does override the platform's
default link-preview behavior (see the counterexample). -/
theorem c3_admin_reply_relay (m : TgMessage) (lookup : Option Int → Option Int)
    (user_id : Int) :
    (m.is_topic_message = true → lookup m.message_thread_id = some user_id →
      handle_admin_reply (some m) lookup = _send_reply_to_user m user_id)
    ∧ (m.is_topic_message = false → handle_admin_reply (some m) lookup = none)
    ∧ (lookup m.message_thread_id = none → handle_admin_reply (some m) lookup = none)
    ∧ (handle_admin_reply none lookup = none)
    ∧ (pyTruthyText m.text = true →
      _send_reply_to_user m user_id =
        some (.message user_id (m.text.getD "") m.entities none true))
    ∧ (pyTruthyText m.text = false → pyTruthyPhoto m.photo = true →
      _send_reply_to_user m user_id =
        some (.photo user_id (lastPhotoId m.photo) m.caption m.caption_entities none))
    ∧ (pyTruthyText m.text = false → pyTruthyPhoto m.photo = false →
      pyTruthyMedia m.animation = true →
      _send_reply_to_user m user_id =
        some (.animation user_id ((m.animation.getD ⟨""⟩).file_id) m.caption
          m.caption_entities none))
    ∧ (pyTruthyText m.text = false → pyTruthyPhoto m.photo = false →
      pyTruthyMedia m.animation = false → pyTruthyMedia m.video = true →
      _send_reply_to_user m user_id =
        some (.video user_id ((m.video.getD ⟨""⟩).file_id) m.caption
          m.caption_entities none))
    ∧ (pyTruthyText m.text = false → pyTruthyPhoto m.photo = false →
      pyTruthyMedia m.animation = false → pyTruthyMedia m.video = false →
      pyTruthyMedia m.document = true →
      _send_reply_to_user m user_id =
        some (.document user_id ((m.document.getD ⟨""⟩).file_id) m.caption
          m.caption_entities none))
    ∧ (pyTruthyText m.text = false → pyTruthyPhoto m.photo = false →
      pyTruthyMedia m.animation = false → pyTruthyMedia m.video = false →
      pyTruthyMedia m.document = false → pyTruthyMedia m.audio = true →
      _send_reply_to_user m user_id =
        some (.audio user_id ((m.audio.getD ⟨""⟩).file_id) m.caption
          m.caption_entities none))
    ∧ (pyTruthyText m.text = false → pyTruthyPhoto m.photo = false →
      pyTruthyMedia m.animation = false → pyTruthyMedia m.video = false →
      pyTruthyMedia m.document = false → pyTruthyMedia m.audio = false →
      pyTruthyMedia m.voice = true →
      _send_reply_to_user m user_id =
        some (.voice user_id ((m.voice.getD ⟨""⟩).file_id) m.caption
          m.caption_entities none))
    ∧ (pyTruthyText m.text = false → pyTruthyPhoto m.photo = false →
      pyTruthyMedia m.animation = false → pyTruthyMedia m.video = false →
      pyTruthyMedia m.document = false → pyTruthyMedia m.audio = false →
      pyTruthyMedia m.voice = false → pyTruthyMedia m.video_note = true →
      _send_reply_to_user m user_id =
        some (.videoNote user_id ((m.video_note.getD ⟨""⟩).file_id) none))
    ∧ (pyTruthyText m.text = false → pyTruthyPhoto m.photo = false →
      pyTruthyMedia m.animation = false → pyTruthyMedia m.video = false →
      pyTruthyMedia m.document = false → pyTruthyMedia m.audio = false →
      pyTruthyMedia m.voice = false → pyTruthyMedia m.video_note = false →
      pyTruthyMedia m.sticker = true →
      _send_reply_to_user m user_id =
        some (.sticker user_id ((m.sticker.getD ⟨""⟩).file_id) none)) := by
  refine ⟨?_, ?_, ?_, ?_, ?_, ?_, ?_, ?_, ?_, ?_, ?_, ?_, ?_⟩ <;>
    · intros
      simp [handle_admin_reply, _send_reply_to_user, *]

/-- C3 counterexample: a bound-topic staff text message is relayed with
`disable_web_page_preview=True` — a link-preview suppression override,
contradicting "no link-preview suppression override (platform default)". -/
theorem c3_counterexample :
    handle_admin_reply
      (some ⟨some "hi https://example.com", none, none, none, [], none, none, none,
        none, none, none, none, true, some 99⟩) (fun _ => some 42) =
      some (.message 42 "hi https://example.com" none none true) ∧
    (SendAction.message 42 "hi https://example.com" none none true ≠
      .message 42 "hi https://example.com" none none false) := by
  exact ⟨rfl, by decide⟩

/-- C3 witness: a bound-topic video-note message is relayed caption-less to
the user's direct chat with no destination topic. -/
theorem c3_admin_reply_relay_witness :
    handle_admin_reply
      (some ⟨none, none, none, none, [], none, none, none, none, none,
        some ⟨"vn"⟩, none, true, some 99⟩) (fun _ => some 42) =
      some (.videoNote 42 "vn" none) := by
  have hglue := (c3_admin_reply_relay
    ⟨none, none, none, none, [], none, none, none, none, none,
      some ⟨"vn"⟩, none, true, some 99⟩ (fun _ => some 42) 42).1 rfl rfl
  have hsend := (c3_admin_reply_relay
    ⟨none, none, none, none, [], none, none, none, none, none,
      some ⟨"vn"⟩, none, true, some 99⟩ (fun _ => some 42) 42).2.2.2.2.2.2.2.2.2.2.2.1
    rfl rfl rfl rfl rfl rfl rfl rfl
  rw [hglue, hsend]
  rfl

/-- C8: for a positive filtered-message count, `view_filtered` serves page 1
with `total_pages = ceiling(total_count / 5)`; the keyboard has a single row
containing a previous-page button exactly when `page > 1` and a next-page
button exactly when `page < total_pages`, each with callback payload
`filtered_page_{target}`; when `total_pages ≤ 1` no keyboard is attached and
the text is sent plain. -/
theorem c8_pagination (total_count : Nat) (fetch : Nat → Nat → List FilteredMsg) :
    (0 < total_count → (total_count + 5 - 1) / 5 = specCeilPages total_count)
    ∧ (∀ page total_pages, total_pages ≤ 1 →
        _get_filtered_messages_keyboard page total_pages = none)
    ∧ (∀ page total_pages, 1 < total_pages →
        _get_filtered_messages_keyboard page total_pages =
          some [(if 1 < page then [⟨"上一页", "filtered_page_" ++ toString (page - 1)⟩] else []) ++
                (if page < total_pages then [⟨"下一页", "filtered_page_" ++ toString (page + 1)⟩] else [])])
    ∧ (0 < total_count → fetch 5 0 ≠ [] →
        view_filtered true total_count fetch =
          .listing (_format_filtered_messages (fetch 5 0) 1 ((total_count + 5 - 1) / 5))
            (_get_filtered_messages_keyboard 1 ((total_count + 5 - 1) / 5))) := by
  refine ⟨?_, ?_, ?_, ?_⟩
  · intro _
    unfold specCeilPages
    by_cases h : total_count % 5 = 0 <;> simp [h] <;> omega
  · intro page total_pages h
    simp [_get_filtered_messages_keyboard, h]
  · intro page total_pages h
    have hne : ((if 1 < page then [(⟨"上一页", "filtered_page_" ++ toString (page - 1)⟩ : IButton)] else []) ++
        (if page < total_pages then [(⟨"下一页", "filtered_page_" ++ toString (page + 1)⟩ : IButton)] else [])) ≠ [] := by
      by_cases hp : 1 < page
      · simp [hp]
      · have hlt : page < total_pages := by omega
        simp [hp, hlt]
    rw [_get_filtered_messages_keyboard, if_neg (by omega)]
    simp only [List.isEmpty_iff]
    rw [if_neg hne]
  · intro hpos hfetch
    have h0 : (total_count == 0) = false := by
      simp [Nat.beq_eq_true_eq]
      omega
    simp [view_filtered, h0, List.isEmpty_iff, hfetch]

/-- C8 witness: 7 filtered messages give 2 pages; page 1 carries only a
next-page control with payload `filtered_page_2`. -/
theorem c8_pagination_witness :
    view_filtered true 7 (fun _ _ => [⟨some "A", none, some "spam", some "hi", some "t"⟩]) =
      .listing (_format_filtered_messages [⟨some "A", none, some "spam", some "hi", some "t"⟩] 1 2)
        (_get_filtered_messages_keyboard 1 2) ∧
    _get_filtered_messages_keyboard 1 2 =
      some [[⟨"下一页", "filtered_page_2"⟩]] := by
  constructor
  · exact (c8_pagination 7 (fun _ _ => [⟨some "A", none, some "spam", some "hi", some "t"⟩])).2.2.2
      (by decide) (by decide)
  · have := (c8_pagination 7 (fun _ _ => [])).2.2.1 1 2 (by decide)
    rw [this]
    rfl

/-- Frame property of one `_get_local_question` call against the heap: cells
allocated before the call are untouched and the allocation counter does not
shrink. -/
theorem getLocalQuestionH_frame (bank : List BankEntryRef) (idx : Nat)
    (js : List Nat) (h : PyHeap) : ∀ r < h.next,
    ((getLocalQuestionH bank idx js h).2).mem r = h.mem r ∧
    h.next ≤ ((getLocalQuestionH bank idx js h).2).next := by
  intro r hr
  have hne : r ≠ h.next := Nat.ne_of_lt hr
  constructor
  · simp [getLocalQuestionH, heapAlloc, heapWrite, hne]
  · simp [getLocalQuestionH, heapAlloc, heapWrite]

/-- Frame property of any sequence of `_get_local_question` calls. -/
theorem runLocalCalls_frame (bank : List BankEntryRef) :
    ∀ (calls : List (Nat × List Nat)) (h : PyHeap), ∀ r < h.next,
    (runLocalCalls bank calls h).mem r = h.mem r := by
  intro calls
  induction calls with
  | nil => intro h r hr; rfl
  | cons c cs ih =>
    intro h r hr
    rw [runLocalCalls]
    obtain ⟨hmem, hnext⟩ := getLocalQuestionH_frame bank c.1 c.2 h r hr
    rw [ih _ r (Nat.lt_of_lt_of_le hr hnext), hmem]

/-- C10: `_get_local_question` shuffles a fresh list built by concatenating
the chosen entry's `incorrect_answers` with its `correct_answer`; a call
never writes to a previously allocated cell, so after any number of calls
every cell of the 29-entry `LOCAL_VERIFICATION_QUESTIONS` bank still holds
its original `incorrect_answers` list (questions and correct answers are
held by value and are immutable strings). -/
theorem c10_bank_not_mutated :
    (∀ (bank : List BankEntryRef) (idx : Nat) (js : List Nat) (h : PyHeap),
      (getLocalQuestionH bank idx js h).1.options =
        fyShuffle js
          (h.mem ((bank.getD (idx % bank.length) ⟨"", "", 0⟩).incorrect_ref) ++
            [(bank.getD (idx % bank.length) ⟨"", "", 0⟩).correct_answer]))
    ∧ (∀ (bank : List BankEntryRef) (idx : Nat) (js : List Nat) (h : PyHeap),
        ∀ r < h.next, ((getLocalQuestionH bank idx js h).2).mem r = h.mem r)
    ∧ (∀ (calls : List (Nat × List Nat)), ∀ i < LOCAL_VERIFICATION_QUESTIONS.length,
        (runLocalCalls localBankRefs calls localBankHeap).mem i =
          (LOCAL_VERIFICATION_QUESTIONS.getD i ⟨"", "", []⟩).incorrect_answers) := by
  refine ⟨?_, ?_, ?_⟩
  · intro bank idx js h
    simp [getLocalQuestionH, heapAlloc, heapWrite]
  · intro bank idx js h r hr
    exact (getLocalQuestionH_frame bank idx js h r hr).1
  · intro calls i hi
    rw [runLocalCalls_frame localBankRefs calls localBankHeap i hi]
    rfl

/-- C10 witness: after two concrete calls the first bank entry's
`incorrect_answers` cell still holds its original contents. -/
theorem c10_bank_not_mutated_witness :
    (runLocalCalls localBankRefs [(0, [1, 2]), (3, [0, 1, 2])] localBankHeap).mem 0 =
      ["上海", "广州", "深圳"] := by
  rw [c10_bank_not_mutated.2.2 [(0, [1, 2]), (3, [0, 1, 2])] 0 (by decide)]
  rfl

/-- C9: `generate_unblock_question` and `generate_verification_challenge`
are observationally equivalent: their prompts are identical, they issue the
same provider request under the same configuration, and given the same
provider outcome, the same parse function and the same random choices they
return identical results (same fallback conditions, fence stripping, option
assembly and shuffle). -/
theorem c9_generators_equivalent :
    unblockPrompt = verificationPrompt
    ∧ (∀ st : ModelServiceState, unblockRequest st = verificationRequest st)
    ∧ (∀ (st : ModelServiceState) (provider : Except Unit String)
        (parse : String → Option QEntry) (idx : Nat) (js : List Nat),
        generate_unblock_question st provider parse idx js =
          generate_verification_challenge st provider parse idx js) :=
  ⟨rfl, fun _ => rfl, fun _ _ _ _ _ => rfl⟩

/-! ## Lemmas: the fence-stripping scan -/

theorem beginsL_le_length : ∀ (p cs : List Char), beginsL p cs = true → p.length ≤ cs.length := by
  intro p
  induction p with
  | nil => intro cs _; simp
  | cons x ps ih =>
    intro cs h
    cases cs with
    | nil => simp [beginsL] at h
    | cons c cs' =>
      simp only [beginsL, Bool.and_eq_true] at h
      simpa using Nat.succ_le_succ (ih cs' h.2)

theorem beginsL_append_self : ∀ (p x : List Char), beginsL p (p ++ x) = true := by
  intro p
  induction p with
  | nil => intro x; rfl
  | cons c ps ih => intro x; simp [beginsL, ih]

theorem beginsL_mono_pre : ∀ (p q cs : List Char), beginsL (p ++ q) cs = true →
    beginsL p cs = true := by
  intro p
  induction p with
  | nil => intro q cs _; rfl
  | cons c ps ih =>
    intro q cs h
    cases cs with
    | nil => simp [beginsL] at h
    | cons d cs' =>
      simp only [List.cons_append, beginsL, Bool.and_eq_true] at h ⊢
      exact ⟨h.1, ih q cs' h.2⟩

theorem drop_len_append : ∀ (p x : List Char), (p ++ x).drop p.length = x := by
  intro p
  induction p with
  | nil => intro x; rfl
  | cons c ps ih => intro x; simpa using ih x

theorem dropWhile_allWs_append : ∀ (w : List Char), allWs w →
    ∀ ys, List.dropWhile wsChar (w ++ ys) = List.dropWhile wsChar ys := by
  intro w
  induction w with
  | nil => intro _ ys; rfl
  | cons c w' ih =>
    intro hw ys
    have hc : wsChar c = true := hw c (by simp)
    have hw' : allWs w' := fun d hd => hw d (by simp [hd])
    simp [List.dropWhile_cons, hc, ih hw' ys]

theorem dropWhile_not_ws {c : Char} (h : wsChar c = false) (ys : List Char) :
    List.dropWhile wsChar (c :: ys) = c :: ys := by
  simp [List.dropWhile_cons, h]

theorem length_dropWhile_ws_le (cs : List Char) :
    (List.dropWhile wsChar cs).length ≤ cs.length := by
  induction cs with
  | nil => simp
  | cons c cs' ih =>
    by_cases h : wsChar c = true
    · simp only [List.dropWhile_cons, h, if_true]
      exact Nat.le_trans ih (Nat.le_succ _)
    · rw [Bool.not_eq_true] at h
      simp [List.dropWhile_cons, h]

theorem fenceMatch_none_iff (cs : List Char) :
    fenceMatch cs = none ↔ beginsL tick3 (List.dropWhile wsChar cs) = false := by
  unfold fenceMatch
  by_cases hbj : beginsL tick3json cs = true
  · have h3 : beginsL tick3 cs = true := beginsL_mono_pre tick3 ['j', 's', 'o', 'n'] cs hbj
    have hdw : List.dropWhile wsChar cs = cs := by
      cases cs with
      | nil => simp [tick3, beginsL] at h3
      | cons c cs' =>
        have hc : ('`' == c) = true := by
          simp only [tick3, beginsL, Bool.and_eq_true] at h3
          exact h3.1
        rw [beq_iff_eq] at hc
        subst hc
        exact dropWhile_not_ws (by decide) cs'
    simp [hbj, hdw, h3]
  · rw [Bool.not_eq_true] at hbj
    simp only [hbj, Bool.false_eq_true, if_false]
    by_cases h3 : beginsL tick3 (List.dropWhile wsChar cs) = true
    · simp [h3]
    · rw [Bool.not_eq_true] at h3
      simp [h3]

theorem fenceMatch_lt : ∀ (cs rest : List Char), fenceMatch cs = some rest →
    rest.length < cs.length := by
  intro cs rest h
  unfold fenceMatch at h
  by_cases hbj : beginsL tick3json cs = true
  · rw [if_pos hbj] at h
    injection h with h
    subst h
    have h7 : 7 ≤ cs.length := by
      have := beginsL_le_length tick3json cs hbj
      simpa using this
    have hd : (cs.drop 7).length = cs.length - 7 := by simp
    have := length_dropWhile_ws_le (cs.drop 7)
    omega
  · rw [Bool.not_eq_true] at hbj
    rw [if_neg (by simp [hbj])] at h
    by_cases h3 : beginsL tick3 (List.dropWhile wsChar cs) = true
    · rw [if_pos h3] at h
      injection h with h
      subst h
      have hlen : 3 ≤ (List.dropWhile wsChar cs).length := by
        have := beginsL_le_length tick3 _ h3
        simpa using this
      have hle := length_dropWhile_ws_le cs
      have hd : ((List.dropWhile wsChar cs).drop 3).length =
          (List.dropWhile wsChar cs).length - 3 := by simp
      omega
    · rw [Bool.not_eq_true] at h3
      rw [if_neg (by simp [h3])] at h
      exact absurd h (by simp)

theorem fenceSubAux_congr : ∀ (n : Nat) (cs : List Char) (f g : Nat),
    cs.length ≤ n → cs.length ≤ f → cs.length ≤ g →
    fenceSubAux f cs = fenceSubAux g cs := by
  intro n
  induction n with
  | zero =>
    intro cs f g hn _ _
    have : cs = [] := List.eq_nil_of_length_eq_zero (Nat.le_zero.mp hn)
    subst this
    cases f <;> cases g <;> rfl
  | succ n ih =>
    intro cs f g hn hf hg
    cases cs with
    | nil => cases f <;> cases g <;> rfl
    | cons c cs' =>
      match f, g with
      | 0, _ => exact absurd hf (by simp)
      | _ + 1, 0 => exact absurd hg (by simp)
      | f' + 1, g' + 1 =>
        simp only [fenceSubAux]
        cases hm : fenceMatch (c :: cs') with
        | some rest =>
          have hlt := fenceMatch_lt _ _ hm
          simp only [List.length_cons] at hn hf hg hlt
          exact ih rest f' g' (by omega) (by omega) (by omega)
        | none =>
          simp only [List.length_cons] at hn hf hg
          rw [ih cs' f' g' (by omega) (by omega) (by omega)]

theorem fenceSub_match {c : Char} {cs rest : List Char}
    (h : fenceMatch (c :: cs) = some rest) : fenceSub (c :: cs) = fenceSub rest := by
  have hlt := fenceMatch_lt _ _ h
  simp only [List.length_cons] at hlt
  unfold fenceSub
  simp only [List.length_cons, fenceSubAux, h]
  exact fenceSubAux_congr rest.length rest cs.length rest.length (Nat.le_refl _)
    (by omega) (Nat.le_refl _)

theorem fenceSub_cons_none {c : Char} {cs : List Char}
    (h : fenceMatch (c :: cs) = none) : fenceSub (c :: cs) = c :: fenceSub cs := by
  unfold fenceSub
  simp only [List.length_cons, fenceSubAux, h]

/-- A head character that is neither whitespace nor a backtick is always
copied unchanged by the scan. -/
theorem fenceSub_cons_safe (c : Char) (h1 : wsChar c = false) (h2 : c ≠ '`')
    (cs : List Char) : fenceSub (c :: cs) = c :: fenceSub cs := by
  apply fenceSub_cons_none
  rw [fenceMatch_none_iff, dropWhile_not_ws h1]
  have he : ('`' == c) = false := by
    rw [beq_eq_false_iff_ne]
    exact fun he => h2 he.symm
  simp [tick3, beginsL, he]

theorem tf_tail (x : Char) (xs : List Char) (h : tripleFree (x :: xs) = true) :
    tripleFree xs = true := by
  simp only [tripleFree, Bool.and_eq_true] at h
  exact h.2

theorem tf_not_begins (x : Char) (xs : List Char) (h : tripleFree (x :: xs) = true) :
    beginsL tick3 (x :: xs) = false := by
  simp only [tripleFree, Bool.and_eq_true, Bool.not_eq_true'] at h
  exact h.1

theorem neq_tick_beq (d : Char) (h : d ≠ '`') : ('`' == d) = false := by
  rw [beq_eq_false_iff_ne]
  exact fun he => h he.symm

theorem ws_beq_tick (c : Char) (h : wsChar c = true) : ('`' == c) = false := by
  apply neq_tick_beq
  intro he
  rw [he] at h
  exact absurd h (by decide)

theorem noTick_scan : ∀ (xs : List Char), tripleFree xs = true →
    ∀ (w : List Char) (d : Char) (ys : List Char), allWs w → wsChar d = false → d ≠ '`' →
    beginsL tick3 (List.dropWhile wsChar (xs ++ (w ++ d :: ys))) = false := by
  intro xs
  induction xs with
  | nil =>
    intro _ w d ys hw hd hdt
    rw [List.nil_append, dropWhile_allWs_append w hw, dropWhile_not_ws hd]
    simp [tick3, beginsL, neq_tick_beq d hdt]
  | cons x xs' ih =>
    intro h w d ys hw hd hdt
    by_cases hx : wsChar x = true
    · simp only [List.cons_append, List.dropWhile_cons, hx, if_true]
      exact ih (tf_tail x xs' h) w d ys hw hd hdt
    · rw [Bool.not_eq_true] at hx
      rw [List.cons_append, dropWhile_not_ws hx]
      by_cases hxt : x = '`'
      · subst hxt
        have hnb := tf_not_begins _ _ h
        cases xs' with
        | nil =>
          cases w with
          | nil => simp [tick3, beginsL, neq_tick_beq d hdt]
          | cons cw w' =>
            have hcw : wsChar cw = true := hw cw (by simp)
            simp [tick3, beginsL, ws_beq_tick cw hcw]
        | cons y xs'' =>
          by_cases hyt : y = '`'
          · subst hyt
            cases xs'' with
            | nil =>
              cases w with
              | nil => simp [tick3, beginsL, neq_tick_beq d hdt]
              | cons cw w' =>
                have hcw : wsChar cw = true := hw cw (by simp)
                simp [tick3, beginsL, ws_beq_tick cw hcw]
            | cons z xs3 =>
              have hz : ('`' == z) = false := by
                simpa [tick3, beginsL] using hnb
              simp [tick3, beginsL, hz]
          · simp [tick3, beginsL, neq_tick_beq y hyt]
      · simp [tick3, beginsL, neq_tick_beq x hxt]

/-- A whitespace chunk before a safe (non-whitespace, non-backtick) head is
copied unchanged by the scan. -/
theorem fenceSub_ws : ∀ (w : List Char), allWs w → ∀ (d : Char) (ys : List Char),
    wsChar d = false → d ≠ '`' →
    fenceSub (w ++ d :: ys) = w ++ fenceSub (d :: ys) := by
  intro w
  induction w with
  | nil => intros; simp
  | cons c w' ih =>
    intro hw d ys hd hdt
    have hc : wsChar c = true := hw c (by simp)
    have hw' : allWs w' := fun e he => hw e (by simp [he])
    have hnone : fenceMatch (c :: (w' ++ d :: ys)) = none := by
      rw [fenceMatch_none_iff]
      simp only [List.dropWhile_cons, hc, if_true]
      rw [dropWhile_allWs_append w' hw', dropWhile_not_ws hd]
      simp [tick3, beginsL, neq_tick_beq d hdt]
    rw [List.cons_append, fenceSub_cons_none hnone, ih hw' d ys hd hdt]
    rfl

/-- A triple-backtick-free segment followed by optional whitespace and a safe
character is copied unchanged by the scan. -/
theorem fenceSub_tf : ∀ (xs : List Char), tripleFree xs = true →
    ∀ (w : List Char) (d : Char) (ys : List Char), allWs w → wsChar d = false → d ≠ '`' →
    fenceSub (xs ++ (w ++ d :: ys)) = xs ++ fenceSub (w ++ d :: ys) := by
  intro xs
  induction xs with
  | nil => intros; simp
  | cons x xs' ih =>
    intro h w d ys hw hd hdt
    have hnone : fenceMatch (x :: (xs' ++ (w ++ d :: ys))) = none := by
      rw [fenceMatch_none_iff]
      have := noTick_scan (x :: xs') h w d ys hw hd hdt
      simpa using this
    rw [List.cons_append, fenceSub_cons_none hnone, ih (tf_tail x xs' h) w d ys hw hd hdt]
    rfl

/-- The closing fence together with the whitespace run before it is removed
entirely. -/
theorem fenceSub_close : ∀ (w : List Char), allWs w → fenceSub (w ++ tick3) = [] := by
  intro w hw
  have hm : fenceMatch (w ++ tick3) = some [] := by
    unfold fenceMatch
    have hbj : beginsL tick3json (w ++ tick3) = false := by
      cases w with
      | nil => decide
      | cons c w' =>
        have hc : wsChar c = true := hw c (by simp)
        simp [tick3json, tick3, beginsL, ws_beq_tick c hc]
    rw [if_neg (by simp [hbj])]
    have hdw : List.dropWhile wsChar (w ++ tick3) = tick3 := by
      rw [dropWhile_allWs_append w hw]; decide
    simp only [hdw]
    rw [if_pos (by decide)]
    rfl
  cases w with
  | nil =>
    have : fenceSub tick3 = fenceSub [] := fenceSub_match (by simpa using hm)
    simpa using this
  | cons c w' =>
    have hm' : fenceMatch (c :: (w' ++ tick3)) = some [] := by simpa using hm
    have : fenceSub (c :: (w' ++ tick3)) = fenceSub [] := fenceSub_match hm'
    simpa using this

/-- `fenceSub_tf` specialised to a directly following safe character. -/
theorem fenceSub_tf_cons (xs : List Char) (h : tripleFree xs = true) (d : Char)
    (ys : List Char) (hd : wsChar d = false) (hdt : d ≠ '`') :
    fenceSub (xs ++ d :: ys) = xs ++ fenceSub (d :: ys) := by
  have := fenceSub_tf xs h [] d ys (by intro c hc; simp at hc) hd hdt
  simpa using this

/-- The scan leaves the whole JSON object text untouched and removes the
trailing whitespace-plus-closing-fence. -/
theorem fenceSub_core (b : Bool) (r w1 w2 w3 w4 w5 w6 w7 w8 w9 : List Char)
    (hw1 : allWs w1) (hw2 : allWs w2) (hw3 : allWs w3) (hw4 : allWs w4)
    (hw5 : allWs w5) (hw6 : allWs w6) (hw7 : allWs w7) (hw8 : allWs w8)
    (hw9 : allWs w9) (hr : tripleFree r = true) :
    fenceSub (spamObjText b r w1 w2 w3 w4 w5 w6 w7 w8 ++ (w9 ++ tick3)) =
      spamObjText b r w1 w2 w3 w4 w5 w6 w7 w8 := by
  cases b
  · simp only [spamObjText, boolTok, keyIsSpam, keyReason, if_true, if_false,
      Bool.false_eq_true, List.cons_append, List.append_assoc, List.nil_append,
      List.singleton_append]
    rw [
fenceSub_cons_safe '\x7b' (by decide) (by decide),
        fenceSub_ws w1 hw1 '"' _ (by decide) (by decide),
        fenceSub_cons_safe '"' (by decide) (by decide),
        fenceSub_cons_safe 'i' (by decide) (by decide),
        fenceSub_cons_safe 's' (by decide) (by decide),
        fenceSub_cons_safe '_' (by decide) (by decide),
        fenceSub_cons_safe 's' (by decide) (by decide),
        fenceSub_cons_safe 'p' (by decide) (by decide),
        fenceSub_cons_safe 'a' (by decide) (by decide),
        fenceSub_cons_safe 'm' (by decide) (by decide),
        fenceSub_cons_safe '"' (by decide) (by decide),
        fenceSub_ws w2 hw2 ':' _ (by decide) (by decide),
        fenceSub_cons_safe ':' (by decide) (by decide),
        fenceSub_ws w3 hw3 'f' _ (by decide) (by decide),
        fenceSub_cons_safe 'f' (by decide) (by decide),
        fenceSub_cons_safe 'a' (by decide) (by decide),
        fenceSub_cons_safe 'l' (by decide) (by decide),
        fenceSub_cons_safe 's' (by decide) (by decide),
        fenceSub_cons_safe 'e' (by decide) (by decide),
        fenceSub_ws w4 hw4 ',' _ (by decide) (by decide),
        fenceSub_cons_safe ',' (by decide) (by decide),
        fenceSub_ws w5 hw5 '"' _ (by decide) (by decide),
        fenceSub_cons_safe '"' (by decide) (by decide),
        fenceSub_cons_safe 'r' (by decide) (by decide),
        fenceSub_cons_safe 'e' (by decide) (by decide),
        fenceSub_cons_safe 'a' (by decide) (by decide),
        fenceSub_cons_safe 's' (by decide) (by decide),
        fenceSub_cons_safe 'o' (by decide) (by decide),
        fenceSub_cons_safe 'n' (by decide) (by decide),
        fenceSub_cons_safe '"' (by decide) (by decide),
        fenceSub_ws w6 hw6 ':' _ (by decide) (by decide),
        fenceSub_cons_safe ':' (by decide) (by decide),
        fenceSub_ws w7 hw7 '"' _ (by decide) (by decide),
        fenceSub_cons_safe '"' (by decide) (by decide),
        fenceSub_tf_cons r hr '"' _ (by decide) (by decide),
        fenceSub_cons_safe '"' (by decide) (by decide),
        fenceSub_ws w8 hw8 '\x7d' _ (by decide) (by decide),
        fenceSub_cons_safe '\x7d' (by decide) (by decide),
        fenceSub_close w9 hw9]
  · simp only [spamObjText, boolTok, keyIsSpam, keyReason, if_true, if_false,
      List.cons_append, List.append_assoc, List.nil_append, List.singleton_append]
    rw [
fenceSub_cons_safe '\x7b' (by decide) (by decide),
        fenceSub_ws w1 hw1 '"' _ (by decide) (by decide),
        fenceSub_cons_safe '"' (by decide) (by decide),
        fenceSub_cons_safe 'i' (by decide) (by decide),
        fenceSub_cons_safe 's' (by decide) (by decide),
        fenceSub_cons_safe '_' (by decide) (by decide),
        fenceSub_cons_safe 's' (by decide) (by decide),
        fenceSub_cons_safe 'p' (by decide) (by decide),
        fenceSub_cons_safe 'a' (by decide) (by decide),
        fenceSub_cons_safe 'm' (by decide) (by decide),
        fenceSub_cons_safe '"' (by decide) (by decide),
        fenceSub_ws w2 hw2 ':' _ (by decide) (by decide),
        fenceSub_cons_safe ':' (by decide) (by decide),
        fenceSub_ws w3 hw3 't' _ (by decide) (by decide),
        fenceSub_cons_safe 't' (by decide) (by decide),
        fenceSub_cons_safe 'r' (by decide) (by decide),
        fenceSub_cons_safe 'u' (by decide) (by decide),
        fenceSub_cons_safe 'e' (by decide) (by decide),
        fenceSub_ws w4 hw4 ',' _ (by decide) (by decide),
        fenceSub_cons_safe ',' (by decide) (by decide),
        fenceSub_ws w5 hw5 '"' _ (by decide) (by decide),
        fenceSub_cons_safe '"' (by decide) (by decide),
        fenceSub_cons_safe 'r' (by decide) (by decide),
        fenceSub_cons_safe 'e' (by decide) (by decide),
        fenceSub_cons_safe 'a' (by decide) (by decide),
        fenceSub_cons_safe 's' (by decide) (by decide),
        fenceSub_cons_safe 'o' (by decide) (by decide),
        fenceSub_cons_safe 'n' (by decide) (by decide),
        fenceSub_cons_safe '"' (by decide) (by decide),
        fenceSub_ws w6 hw6 ':' _ (by decide) (by decide),
        fenceSub_cons_safe ':' (by decide) (by decide),
        fenceSub_ws w7 hw7 '"' _ (by decide) (by decide),
        fenceSub_cons_safe '"' (by decide) (by decide),
        fenceSub_tf_cons r hr '"' _ (by decide) (by decide),
        fenceSub_cons_safe '"' (by decide) (by decide),
        fenceSub_ws w8 hw8 '\x7d' _ (by decide) (by decide),
        fenceSub_cons_safe '\x7d' (by decide) (by decide),
        fenceSub_close w9 hw9]

theorem trimRight_snoc (xs : List Char) (c : Char) (hc : wsChar c = false) :
    trimRightWs (xs ++ [c]) = xs ++ [c] := by
  unfold trimRightWs
  rw [List.reverse_append]
  simp only [List.reverse_cons, List.reverse_nil, List.nil_append, List.singleton_append]
  rw [dropWhile_not_ws hc]
  simp

theorem spamObjText_snoc (b : Bool) (r w1 w2 w3 w4 w5 w6 w7 w8 : List Char) :
    spamObjText b r w1 w2 w3 w4 w5 w6 w7 w8 =
      ('\x7b' :: (w1 ++ (keyIsSpam ++ (w2 ++ (':' :: (w3 ++ (boolTok b ++ (w4 ++ (',' ::
        (w5 ++ (keyReason ++ (w6 ++ (':' :: (w7 ++ ('"' :: (r ++ ('"' :: w8)))))))))))))))))
      ++ ['\x7d'] := by
  simp [spamObjText, List.append_assoc]

theorem stripWs_core (w0 : List Char) (hw0 : allWs w0) (b : Bool)
    (r w1 w2 w3 w4 w5 w6 w7 w8 : List Char) :
    stripWs (w0 ++ spamObjText b r w1 w2 w3 w4 w5 w6 w7 w8) =
      spamObjText b r w1 w2 w3 w4 w5 w6 w7 w8 := by
  unfold stripWs trimLeftWs
  rw [dropWhile_allWs_append w0 hw0]
  have h1 : List.dropWhile wsChar (spamObjText b r w1 w2 w3 w4 w5 w6 w7 w8) =
      spamObjText b r w1 w2 w3 w4 w5 w6 w7 w8 := by
    simp only [spamObjText]
    exact dropWhile_not_ws (by decide) _
  rw [h1, spamObjText_snoc, trimRight_snoc _ _ (by decide), ← spamObjText_snoc]

theorem fenceSub_of_match (cs rest : List Char) (h : fenceMatch cs = some rest)
    (hcs : cs ≠ []) : fenceSub cs = fenceSub rest := by
  cases cs with
  | nil => exact absurd rfl hcs
  | cons c cs' => exact fenceSub_match h

theorem fenceSub_ws_head (w : List Char) (hw : allWs w) (ys : List Char) (d : Char)
    (hhead : ys.head? = some d) (hd : wsChar d = false) (hdt : d ≠ '`') :
    fenceSub (w ++ ys) = w ++ fenceSub ys := by
  cases ys with
  | nil => simp at hhead
  | cons e ys' =>
    simp only [List.head?] at hhead
    injection hhead with hhead
    subst hhead
    exact fenceSub_ws w hw e ys' hd hdt

theorem beginsL_false_head (p : Char) (ps ys : List Char) (d : Char)
    (hhead : ys.head? = some d) (hp : (p == d) = false) :
    beginsL (p :: ps) ys = false := by
  cases ys with
  | nil => simp at hhead
  | cons e ys' =>
    simp only [List.head?] at hhead
    injection hhead with hhead
    subst hhead
    simp [beginsL, hp]

theorem ws_beq (d c : Char) (hd : wsChar d = false) (hc : wsChar c = true) :
    (d == c) = false := by
  rw [beq_eq_false_iff_ne]
  intro he
  rw [← he] at hc
  rw [hd] at hc
  exact Bool.false_ne_true hc

theorem beginsL_append_both : ∀ (a p x : List Char),
    beginsL (a ++ p) (a ++ x) = beginsL p x := by
  intro a
  induction a with
  | nil => intro p x; rfl
  | cons c a' ih => intro p x; simp [beginsL, ih]

theorem dropWhile_head_safe (ys : List Char) (d : Char) (hhead : ys.head? = some d)
    (hd : wsChar d = false) : List.dropWhile wsChar ys = ys := by
  cases ys with
  | nil => simp at hhead
  | cons e ys' =>
    simp only [List.head?] at hhead
    injection hhead with hhead
    subst hhead
    exact dropWhile_not_ws hd ys'

/-- The full cleaning step on a fenced response: strip the fences and the
surrounding whitespace, keeping the JSON object text intact. -/
theorem cleanResponse_spam (fo w0 w9 : List Char) (hfo : fo = tick3json ∨ fo = tick3)
    (hw0 : allWs w0) (b : Bool) (r w1 w2 w3 w4 w5 w6 w7 w8 : List Char)
    (hw1 : allWs w1) (hw2 : allWs w2) (hw3 : allWs w3) (hw4 : allWs w4)
    (hw5 : allWs w5) (hw6 : allWs w6) (hw7 : allWs w7) (hw8 : allWs w8)
    (hw9 : allWs w9) (hr : tripleFree r = true) :
    stripWs (fenceSub (fencedResponse fo w0 (spamObjText b r w1 w2 w3 w4 w5 w6 w7 w8) w9)) =
      spamObjText b r w1 w2 w3 w4 w5 w6 w7 w8 := by
  have hcore := fenceSub_core b r w1 w2 w3 w4 w5 w6 w7 w8 w9 hw1 hw2 hw3 hw4 hw5
    hw6 hw7 hw8 hw9 hr
  have hheadCore : (spamObjText b r w1 w2 w3 w4 w5 w6 w7 w8 ++ (w9 ++ tick3)).head? =
      some '\x7b' := by
    simp [spamObjText]
  have hdwCore : List.dropWhile wsChar
      (spamObjText b r w1 w2 w3 w4 w5 w6 w7 w8 ++ (w9 ++ tick3)) =
      spamObjText b r w1 w2 w3 w4 w5 w6 w7 w8 ++ (w9 ++ tick3) :=
    dropWhile_head_safe _ '\x7b' hheadCore (by decide)
  rcases hfo with h | h <;> subst h
  · have hm : fenceMatch (fencedResponse tick3json w0
        (spamObjText b r w1 w2 w3 w4 w5 w6 w7 w8) w9) =
        some (spamObjText b r w1 w2 w3 w4 w5 w6 w7 w8 ++ (w9 ++ tick3)) := by
      unfold fencedResponse fenceMatch
      rw [if_pos (beginsL_append_self tick3json _)]
      have hdrop := drop_len_append tick3json
        (w0 ++ (spamObjText b r w1 w2 w3 w4 w5 w6 w7 w8 ++ (w9 ++ tick3)))
      have hlen : tick3json.length = 7 := by decide
      rw [hlen] at hdrop
      rw [hdrop, dropWhile_allWs_append w0 hw0, hdwCore]
    rw [fenceSub_of_match _ _ hm (by simp [fencedResponse, tick3json, tick3]), hcore]
    have := stripWs_core [] (by intro c hc; simp at hc) b r w1 w2 w3 w4 w5 w6 w7 w8
    simpa using this
  · have hm : fenceMatch (fencedResponse tick3 w0
        (spamObjText b r w1 w2 w3 w4 w5 w6 w7 w8) w9) =
        some (w0 ++ (spamObjText b r w1 w2 w3 w4 w5 w6 w7 w8 ++ (w9 ++ tick3))) := by
      unfold fencedResponse fenceMatch
      have hbj : beginsL tick3json
          (tick3 ++ (w0 ++ (spamObjText b r w1 w2 w3 w4 w5 w6 w7 w8 ++ (w9 ++ tick3)))) =
          false := by
        have he : tick3json = tick3 ++ ['j', 's', 'o', 'n'] := rfl
        rw [he, beginsL_append_both tick3 ['j', 's', 'o', 'n']
          (w0 ++ (spamObjText b r w1 w2 w3 w4 w5 w6 w7 w8 ++ (w9 ++ tick3)))]
        cases hw : w0 with
        | nil =>
          simp only [List.nil_append]
          exact beginsL_false_head 'j' _ _ '\x7b' hheadCore (by decide)
        | cons c w0' =>
          have hc : wsChar c = true := hw0 c (by rw [hw]; simp)
          exact beginsL_false_head 'j' _ _ c (by simp) (ws_beq 'j' c (by decide) hc)
      rw [if_neg (by simp [hbj])]
      have hdw : List.dropWhile wsChar
          (tick3 ++ (w0 ++ (spamObjText b r w1 w2 w3 w4 w5 w6 w7 w8 ++ (w9 ++ tick3)))) =
          tick3 ++ (w0 ++ (spamObjText b r w1 w2 w3 w4 w5 w6 w7 w8 ++ (w9 ++ tick3))) := by
        simp only [tick3, List.cons_append]
        exact dropWhile_not_ws (by decide) _
      simp only [hdw]
      rw [if_pos (beginsL_append_self tick3 _)]
      have hdrop := drop_len_append tick3
        (w0 ++ (spamObjText b r w1 w2 w3 w4 w5 w6 w7 w8 ++ (w9 ++ tick3)))
      have hlen : tick3.length = 3 := by decide
      rw [hlen] at hdrop
      rw [hdrop]
    rw [fenceSub_of_match _ _ hm (by simp [fencedResponse, tick3]),
      fenceSub_ws_head w0 hw0 _ '\x7b' hheadCore (by decide) (by decide), hcore]
    exact stripWs_core w0 hw0 b r w1 w2 w3 w4 w5 w6 w7 w8

theorem dropTok_self (pat ys : List Char) : dropTok pat (pat ++ ys) = some ys := by
  unfold dropTok
  rw [if_pos (beginsL_append_self pat ys), drop_len_append]

theorem dropTok_cons (c : Char) (ys : List Char) : dropTok [c] (c :: ys) = some ys := by
  simp [dropTok, beginsL]

theorem decodeLit_cons_plain (c : Char) (rest : List Char) (hc : c ≠ '\\') :
    decodeLit (c :: rest) = c :: decodeLit rest := by
  rw [decodeLit.eq_def]
  simp [hc]

theorem decodeLit_cons_esc (e : Char) (rest : List Char) :
    decodeLit ('\\' :: e :: rest) = (jsonEsc e).getD e :: decodeLit rest := by
  rw [decodeLit.eq_def]
  simp

theorem readStrLit_decode : ∀ (n : Nat) (r : List Char), r.length ≤ n →
    litBodyOk r = true →
    ∀ ys, readStrLit (r ++ '"' :: ys) = some (decodeLit r, ys) := by
  intro n
  induction n with
  | zero =>
    intro r hn _ ys
    have : r = [] := List.eq_nil_of_length_eq_zero (Nat.le_zero.mp hn)
    subst this
    simp [readStrLit.eq_def, decodeLit]
  | succ n ih =>
    intro r hn hok ys
    cases r with
    | nil => simp [readStrLit.eq_def, decodeLit]
    | cons c rest =>
      by_cases hc : c = '\\'
      · subst hc
        cases rest with
        | nil =>
          rw [litBodyOk.eq_def] at hok
          simp at hok
        | cons e rest2 =>
          rw [litBodyOk.eq_def] at hok
          simp only [reduceIte, Bool.and_eq_true, Option.isSome_iff_exists] at hok
          obtain ⟨⟨x, hx⟩, hok2⟩ := hok
          have hlen : rest2.length ≤ n := by
            simp only [List.length_cons] at hn
            omega
          rw [List.cons_append, List.cons_append, readStrLit.eq_def]
          simp only [reduceIte, hx, ih rest2 hlen hok2 ys, Option.map_some',
            decodeLit_cons_esc]
          simp [hx]
      · rw [litBodyOk.eq_def] at hok
        simp only [if_neg hc, Bool.and_eq_true] at hok
        obtain ⟨hp, hok2⟩ := hok
        simp only [plainChar, Bool.and_eq_true, bne_iff_ne, Bool.not_eq_true',
          decide_eq_false_iff_not] at hp
        obtain ⟨⟨hc1, _⟩, hc3⟩ := hp
        have hlen : rest.length ≤ n := by
          simp only [List.length_cons] at hn
          omega
        rw [List.cons_append, readStrLit.eq_def]
        simp only [if_neg hc1, if_neg hc, if_neg hc3, ih rest hlen hok2 ys,
          Option.map_some', decodeLit_cons_plain c rest hc]

/-- Reading an encoded body followed by the closing quote yields its decoded
value. -/
theorem readStrLit_litBody (r : List Char) (h : litBodyOk r = true) (ys : List Char) :
    readStrLit (r ++ '"' :: ys) = some (decodeLit r, ys) :=
  readStrLit_decode r.length r (Nat.le_refl _) h ys

theorem parseBoolTok_self (b : Bool) (ys : List Char) :
    parseBoolTok (boolTok b ++ ys) = some (b, ys) := by
  cases b <;> simp [parseBoolTok, boolTok, beginsL]

theorem dropWhile_keyIsSpam (X : List Char) :
    List.dropWhile wsChar (keyIsSpam ++ X) = keyIsSpam ++ X :=
  dropWhile_head_safe _ '"' (by simp [keyIsSpam]) (by decide)

theorem dropWhile_keyReason (X : List Char) :
    List.dropWhile wsChar (keyReason ++ X) = keyReason ++ X :=
  dropWhile_head_safe _ '"' (by simp [keyReason]) (by decide)

theorem dropWhile_boolTok (b : Bool) (X : List Char) :
    List.dropWhile wsChar (boolTok b ++ X) = boolTok b ++ X := by
  cases b
  · simp only [boolTok, Bool.false_eq_true, if_false, List.cons_append]
    exact dropWhile_not_ws (by decide) _
  · simp only [boolTok, if_true, List.cons_append]
    exact dropWhile_not_ws (by decide) _

/-- The restricted `json.loads` model accepts exactly the object text and
recovers the boolean and the (plain) reason string. -/
theorem parseSpamObj_spamObjText (b : Bool) (r w1 w2 w3 w4 w5 w6 w7 w8 : List Char)
    (hw1 : allWs w1) (hw2 : allWs w2) (hw3 : allWs w3) (hw4 : allWs w4)
    (hw5 : allWs w5) (hw6 : allWs w6) (hw7 : allWs w7) (hw8 : allWs w8)
    (hlit : litBodyOk r = true) :
    parseSpamObj (spamObjText b r w1 w2 w3 w4 w5 w6 w7 w8) = some (b, decodeLit r) := by
  simp only [parseSpamObj, spamObjText, Option.bind_eq_bind, Option.some_bind,
    dropWhile_allWs_append w1 hw1, dropWhile_allWs_append w2 hw2,
    dropWhile_allWs_append w3 hw3, dropWhile_allWs_append w4 hw4,
    dropWhile_allWs_append w5 hw5, dropWhile_allWs_append w6 hw6,
    dropWhile_allWs_append w7 hw7, dropWhile_allWs_append w8 hw8,
    dropWhile_not_ws (show wsChar '\x7b' = false by decide),
    dropWhile_not_ws (show wsChar ':' = false by decide),
    dropWhile_not_ws (show wsChar ',' = false by decide),
    dropWhile_not_ws (show wsChar '"' = false by decide),
    dropWhile_not_ws (show wsChar '\x7d' = false by decide),
    dropWhile_keyIsSpam, dropWhile_keyReason, dropWhile_boolTok,
    dropTok_cons, dropTok_self, parseBoolTok_self, readStrLit_litBody r hlit,
    List.dropWhile_nil, List.isEmpty_nil, if_true]

theorem strMk_ne_empty (L : List Char) (h : L ≠ []) : (String.mk L == "") = false := by
  rw [beq_eq_false_iff_ne]
  intro he
  apply h
  have := congrArg String.data he
  simpa using this

/-- C6 (amended): for every provider response consisting of a well-formed
JSON object `\x7b"is_spam": <bool>, "reason": "<string>"\x7d` — arbitrary
JSON whitespace between tokens, and the reason an arbitrary well-formed
string literal body, escape sequences included (`r` ranges over encoded
bodies, the parsed reason being its decoding `decodeLit r`) — surrounded
only by a leading ```` ```json ```` or ```` ``` ```` fence and a trailing
```` ``` ```` fence, `analyze_message` strips the markup and returns the
parsed object — provided the object's text contains no run of three
consecutive backticks (an interior ```` ``` ```` is also deleted by the
global regex and corrupts the reason, see the counterexample). -/
theorem c6_fence_stripping (st : ModelServiceState) (msgText : Option String)
    (image_bytes : Option (List Nat)) (decodeOk : List Nat → Bool)
    (hA : st.adapter.isNone = false) (hF : pyFalsyStr st.filter_model_name = false)
    (htext : pyTruthyText msgText = true)
    (fo w0 w1 w2 w3 w4 w5 w6 w7 w8 w9 : List Char)
    (hfo : fo = tick3json ∨ fo = tick3)
    (hw0 : allWs w0) (hw1 : allWs w1) (hw2 : allWs w2) (hw3 : allWs w3)
    (hw4 : allWs w4) (hw5 : allWs w5) (hw6 : allWs w6) (hw7 : allWs w7)
    (hw8 : allWs w8) (hw9 : allWs w9) (b : Bool) (r : List Char)
    (hlit : litBodyOk r = true) (htf : tripleFree r = true) :
    analyze_message st true msgText image_bytes decodeOk
      (.ok (String.mk (fencedResponse fo w0 (spamObjText b r w1 w2 w3 w4 w5 w6 w7 w8) w9))) =
      ({ is_spam := b, reason := String.mk (decodeLit r) }, true) := by
  have hclean : cleanResponse
      (String.mk (fencedResponse fo w0 (spamObjText b r w1 w2 w3 w4 w5 w6 w7 w8) w9)) =
      spamObjText b r w1 w2 w3 w4 w5 w6 w7 w8 :=
    cleanResponse_spam fo w0 w9 hfo hw0 b r w1 w2 w3 w4 w5 w6 w7 w8
      hw1 hw2 hw3 hw4 hw5 hw6 hw7 hw8 hw9 htf
  have hne : (String.mk (fencedResponse fo w0
      (spamObjText b r w1 w2 w3 w4 w5 w6 w7 w8) w9) == "") = false := by
    apply strMk_ne_empty
    rcases hfo with h | h <;> subst h <;> simp [fencedResponse, tick3json, tick3]
  have hparse := parseSpamObj_spamObjText b r w1 w2 w3 w4 w5 w6 w7 w8
    hw1 hw2 hw3 hw4 hw5 hw6 hw7 hw8 hlit
  simp [analyze_message, hA, hF, htext, hne, hclean, hparse]

/-- C6 counterexample: the fenced response
`` ```json\x0a\x7b"is_spam": true, "reason": "a```b"\x7d\x0a``` `` is a
well-formed JSON object of the claimed shape surrounded only by
leading/trailing fence markup, yet `analyze_message` returns reason `"ab"`,
not the parsed object's reason `"a```b"` — the global regex also deletes the
interior backtick run. -/
theorem c6_counterexample :
    analyze_message ⟨some (.gemini "k" none), some "f", some "v"⟩ true (some "hi") none
      (fun _ => false)
      (.ok "```json\n\x7b\"is_spam\": true, \"reason\": \"a```b\"\x7d\n```") =
      ({ is_spam := true, reason := "ab" }, true) ∧
    ("ab" : String) ≠ "a```b" := by
  exact ⟨by decide, by decide⟩

/-- C6 witness: two instances of the amended statement.  First the spec's
exact example — the fenced response equal to the literal
`` ```json\x0a\x7b"is_spam": true, "reason": "辱骂"\x7d\x0a``` `` yields
`\x7bis_spam: true, reason: "辱骂"\x7d`.  Second an escaped reason — the
response whose reason literal is `a\"b` yields the decoded reason `a"b`. -/
theorem c6_fence_stripping_witness :
    String.mk (fencedResponse tick3json ['\n']
      (spamObjText true "辱骂".data [] [] [' '] [] [' '] [] [' '] []) ['\n']) =
      "```json\n\x7b\"is_spam\": true, \"reason\": \"辱骂\"\x7d\n```" ∧
    analyze_message ⟨some (.gemini "k" none), some "f", some "v"⟩ true (some "hi") none
      (fun _ => false)
      (.ok (String.mk (fencedResponse tick3json ['\n']
        (spamObjText true "辱骂".data [] [] [' '] [] [' '] [] [' '] []) ['\n']))) =
      ({ is_spam := true, reason := String.mk (decodeLit "辱骂".data) }, true) ∧
    String.mk (fencedResponse tick3json ['\n']
      (spamObjText true ['a', '\\', '"', 'b'] [] [] [' '] [] [' '] [] [' '] []) ['\n']) =
      "```json\n\x7b\"is_spam\": true, \"reason\": \"a\\\"b\"\x7d\n```" ∧
    analyze_message ⟨some (.gemini "k" none), some "f", some "v"⟩ true (some "hi") none
      (fun _ => false)
      (.ok (String.mk (fencedResponse tick3json ['\n']
        (spamObjText true ['a', '\\', '"', 'b'] [] [] [' '] [] [' '] [] [' '] []) ['\n']))) =
      ({ is_spam := true, reason := "a\"b" }, true) := by
  refine ⟨by decide, ?_, by decide, ?_⟩
  · exact c6_fence_stripping ⟨some (.gemini "k" none), some "f", some "v"⟩ (some "hi")
      none (fun _ => false) rfl rfl rfl tick3json ['\n'] [] [] [' '] [] [' '] [] [' ']
      [] ['\n'] (Or.inl rfl) (by unfold allWs; decide) (by unfold allWs; decide)
      (by unfold allWs; decide) (by unfold allWs; decide) (by unfold allWs; decide)
      (by unfold allWs; decide) (by unfold allWs; decide) (by unfold allWs; decide)
      (by unfold allWs; decide) (by unfold allWs; decide) true "辱骂".data
      (by decide) (by decide)
  · have h := c6_fence_stripping ⟨some (.gemini "k" none), some "f", some "v"⟩ (some "hi")
      none (fun _ => false) rfl rfl rfl tick3json ['\n'] [] [] [' '] [] [' '] [] [' ']
      [] ['\n'] (Or.inl rfl) (by unfold allWs; decide) (by unfold allWs; decide)
      (by unfold allWs; decide) (by unfold allWs; decide) (by unfold allWs; decide)
      (by unfold allWs; decide) (by unfold allWs; decide) (by unfold allWs; decide)
      (by unfold allWs; decide) (by unfold allWs; decide) true ['a', '\\', '"', 'b']
      (by decide) (by decide)
    rw [h]
    decide
